import Mathlib

/-!
Verification development for the TUPA extraction-and-normalization pipeline
(`packages/scraper/src`).  The Python sources are shallowly embedded: pure
extraction helpers become Lean functions over `List Char` / `String`, the
`re` patterns are embedded via a small backtracking regex engine with
Python's leftmost / ordered-alternation / greedy semantics, Python `float`
costs are modelled as `Rat` (every concrete value appearing in the claims is
exactly representable), and the batch persistence loop becomes a fold over an
explicit database state.  BeautifulSoup DOM queries and the PDF/Excel reading
libraries are external collaborators: their query results (selector hits,
list-item texts, page text, table rows) are inputs of the embedded
extractors, exactly as the source functions consume them.
-/

namespace Scraper

/-! ## Python-style string primitives

Python's `str.lower`, substring containment (`in`), `startswith`, and
whitespace stripping, on `List Char`.  Case folding is ASCII-only (the
sources only rely on ASCII case folding in the places the claims touch;
accented characters are compared literally). -/

def lowCh (c : Char) : Char := c.toLower

def lowStr (s : List Char) : List Char := s.map lowCh

/-- Python whitespace class `\s` (ASCII part). -/
def isSpaceCh (c : Char) : Bool :=
  c == ' ' || c == '\t' || c == '\n' || c == '\r' || c == '\x0b' || c == '\x0c'

/-- `needle` occurs contiguously in `haystack` starting at its head. -/
def startsWithL : List Char → List Char → Bool
  | [], _ => true
  | _ :: _, [] => false
  | a :: as, b :: bs => a == b && startsWithL as bs

/-- Python `needle in haystack` (contiguous substring test). -/
def containsL (haystack needle : List Char) : Bool :=
  haystack.tails.any (fun t => startsWithL needle t)

def containsS (haystack needle : String) : Bool :=
  containsL haystack.data needle.data

/-- Python `str.strip()` (ASCII whitespace). -/
def stripL (s : List Char) : List Char :=
  (((s.dropWhile isSpaceCh).reverse).dropWhile isSpaceCh).reverse

def stripS (s : String) : String := String.mk (stripL s.data)

/-- Python `text.split(sep)` for a single-character separator. -/
def splitOnCh (sep : Char) (s : List Char) : List (List Char) :=
  s.splitOn sep

/-! ## A small regex engine

Backtracking matcher reproducing CPython `re` semantics for the constructs
the sources use: case-insensitive literals, character classes, greedy
`*` / `+` / `{lo,hi}` over classes, greedy `?`, ordered alternation, one
capture group, and a star over the fixed-width deterministic group
`(?:,\d{3})*` (carried as an explicit step function).  Search is leftmost:
the first start position at which the matcher succeeds wins, and at that
position alternatives are tried in pattern order with greedy quantifiers
backtracking from longest to shortest. -/

inductive RE where
  | lit : List Char → RE
  | lits : List Char → RE
  | cls : (Char → Bool) → RE
  | star : (Char → Bool) → RE
  | reps : (Char → Bool) → Nat → Nat → RE
  | qmark : RE → RE
  | seq : RE → RE → RE
  | alt : RE → RE → RE
  | grp : RE → RE
  | dstar : (List Char → Option (List Char)) → RE

/-- Case-insensitive literal match; returns the remaining suffix.
`lit` is used for the patterns compiled with `re.IGNORECASE` (ASCII
folding; accented characters compare literally, which agrees with the
source texts exercised here). -/
def litMatch : List Char → List Char → Option (List Char)
  | [], s => some s
  | _ :: _, [] => none
  | a :: as, b :: bs => if lowCh a == lowCh b then litMatch as bs else none

/-- Case-sensitive literal match (patterns compiled without flags). -/
def litMatchCS : List Char → List Char → Option (List Char)
  | [], s => some s
  | _ :: _, [] => none
  | a :: as, b :: bs => if a == b then litMatchCS as bs else none

/-- Length of the maximal class run at the head of the string. -/
def runLen (p : Char → Bool) : List Char → Nat
  | [] => 0
  | c :: cs => if p c then runLen p cs + 1 else 0

/-- Try dropping `n, n-1, …` characters (never fewer than `lo`),
preferring the longest drop: greedy quantifier backtracking. -/
def tryDropFrom (k : List Char → Option β) (s : List Char) (lo : Nat) :
    Nat → Option β
  | 0 => if lo == 0 then k s else none
  | n + 1 =>
      (if lo ≤ n + 1 then k (s.drop (n + 1)) else none) <|> tryDropFrom k s lo n

/-- Iterate a deterministic fixed-width step as long as it applies, returning
the chain of suffixes `[s₀, s₁, …]` (fuel-bounded; each step must shrink). -/
def chainList (step : List Char → Option (List Char)) :
    Nat → List Char → List (List Char)
  | 0, s => [s]
  | fuel + 1, s =>
      s :: (match step s with
        | some s2 => if s2.length < s.length then chainList step fuel s2 else []
        | none => [])

/-- CPS backtracking matcher.  `cap` carries the (single) capture group. -/
def mat : RE → List Char → Option (List Char) →
    (List Char → Option (List Char) → Option β) → Option β
  | .lit l, s, cap, k =>
      match litMatch l s with
      | some s2 => k s2 cap
      | none => none
  | .lits l, s, cap, k =>
      match litMatchCS l s with
      | some s2 => k s2 cap
      | none => none
  | .cls p, s, cap, k =>
      match s with
      | [] => none
      | c :: rest => if p c then k rest cap else none
  | .star p, s, cap, k => tryDropFrom (fun s2 => k s2 cap) s 0 (runLen p s)
  | .reps p lo hi, s, cap, k =>
      tryDropFrom (fun s2 => k s2 cap) s lo (min hi (runLen p s))
  | .qmark r, s, cap, k => (mat r s cap k) <|> k s cap
  | .seq a b, s, cap, k => mat a s cap (fun s2 c2 => mat b s2 c2 k)
  | .alt a b, s, cap, k => (mat a s cap k) <|> (mat b s cap k)
  | .grp r, s, cap, k =>
      mat r s cap (fun s2 _ => k s2 (some (s.take (s.length - s2.length))))
  | .dstar step, s, cap, k =>
      ((chainList step s.length s).reverse).findSome? (fun s2 => k s2 cap)

/-- Attempt a match anchored at the head of `t`; on success returns
`(matched_text, capture, rest)`. -/
def matchAt (r : RE) (t : List Char) :
    Option (List Char × Option (List Char) × List Char) :=
  mat r t none (fun s2 cap => some (t.take (t.length - s2.length), cap, s2))

/-- Python `re.search`: leftmost successful start position. -/
def reSearchFrom (r : RE) : List Char → Option (List Char × Option (List Char) × List Char)
  | [] => matchAt r []
  | c :: cs => (matchAt r (c :: cs)) <|> reSearchFrom r cs

/-- `m.group(1)` of a successful search (none when no match). -/
def reFindCap (r : RE) (t : List Char) : Option (List Char) :=
  match reSearchFrom r t with
  | some (_, cap, _) => cap
  | none => none

/-- `m.group(0)` of a successful search. -/
def reFindMatch (r : RE) (t : List Char) : Option (List Char) :=
  match reSearchFrom r t with
  | some (m, _, _) => some m
  | none => none

/-- Boolean `re.search` test. -/
def reTest (r : RE) (t : List Char) : Bool :=
  (reSearchFrom r t).isSome

/-- Python `re.findall`: non-overlapping matches left to right, each entry
`(group0, group1?)`; an empty match advances one character. -/
def reFindAllAux (r : RE) : Nat → List Char → List (List Char × Option (List Char))
  | 0, _ => []
  | fuel + 1, t =>
      match reSearchFrom r t with
      | none => []
      | some (m, cap, rest) =>
          let next := if m.isEmpty then rest.drop 1 else rest
          (m, cap) ::
            (if m.isEmpty && rest.isEmpty then [] else reFindAllAux r fuel next)

def reFindAll (r : RE) (t : List Char) : List (List Char × Option (List Char)) :=
  reFindAllAux r (t.length + 1) t

/-- Leftmost search returning `(text_before_match, group0, rest)`. -/
def reSearchSplitAux (r : RE) (acc : List Char) :
    List Char → Option (List Char × List Char × List Char)
  | [] =>
      match matchAt r [] with
      | some (m, _, rest) => some (acc.reverse, m, rest)
      | none => none
  | c :: cs =>
      match matchAt r (c :: cs) with
      | some (m, _, rest) => some (acc.reverse, m, rest)
      | none => reSearchSplitAux r (c :: acc) cs

/-- Python `re.split` (for patterns that cannot match the empty string and
have no capture groups): the pieces of the text between successive
non-overlapping matches. -/
def reSplitAux (r : RE) : Nat → List Char → List (List Char)
  | 0, t => [t]
  | fuel + 1, t =>
      match reSearchSplitAux r [] t with
      | none => [t]
      | some (pre, m, rest) =>
          if m.isEmpty then [t] else pre :: reSplitAux r fuel rest

def reSplit (r : RE) (t : List Char) : List (List Char) :=
  reSplitAux r (t.length + 1) t

/-- Case-insensitive list-level `startswith` (ASCII folding). -/
def startsWithCI : List Char → List Char → Bool
  | [], _ => true
  | _ :: _, [] => false
  | a :: as, b :: bs => lowCh a == lowCh b && startsWithCI as bs

/-- `r+` over a character class. -/
def plusCls (p : Char → Bool) : RE := .seq (.cls p) (.star p)

def litS (s : String) : RE := .lit s.data

/-! ## Numeric parsing

Python `float()` on the strings produced by the numeric capture groups
(`\d+(\.\d{2})?`, possibly with thousands separators already removed).
All such values are exactly-representable decimals, modelled in `Rat`. -/

def digitVal (c : Char) : Nat := c.toNat - '0'.toNat

def digitsVal (cs : List Char) : Nat :=
  cs.foldl (fun a c => a * 10 + digitVal c) 0

/-- `float(s)` for a digits-and-at-most-one-dot string (the only shapes the
embedded captures produce); total, mirroring the fact that `float` cannot
raise on those shapes. -/
def parseDecQ (cs : List Char) : Rat :=
  match cs.splitOn '.' with
  | [ip] => (digitsVal ip : Rat)
  | [ip, fp] => (digitsVal ip : Rat) + (digitsVal fp : Rat) / ((10 : Rat) ^ fp.length)
  | _ => 0

/-- `float(s)` guarded as in `PDFProcessor._parse_tasa_row`: the row guard
(`isdigit` after stripping dots and commas) has already removed commas, so
the function succeeds exactly on nonempty digit strings with at most one
dot; any other shape raises in the source, caught and turned into "no
record". -/
def pyFloatDec? (cs : List Char) : Option Rat :=
  if cs.all (fun c => c.isDigit || c == '.') && cs.any Char.isDigit
      && (cs.filter (fun c => c == '.')).length ≤ 1 then
    some (parseDecQ cs)
  else none

/-! ## Character classes used by the source patterns -/

def isDigitCh (c : Char) : Bool := c.isDigit

/-- `[A-Z0-9\-\.]` under `re.IGNORECASE` (so lowercase letters match too). -/
def isCodeCh (c : Char) : Bool :=
  c.isAlpha || c.isDigit || c == '-' || c == '.'

/-- `[:.\-\s]` -/
def isSepCh (c : Char) : Bool :=
  c == ':' || c == '.' || c == '-' || isSpaceCh c

/-- `[:\s]` -/
def isColonSpaceCh (c : Char) : Bool := c == ':' || isSpaceCh c

/-- `[^\n]` -/
def isNotNl (c : Char) : Bool := c != '\n'

/-- `[^\n.]` -/
def isNotNlDot (c : Char) : Bool := c != '\n' && c != '.'

/-- `\w`: Python word characters, restricted to ASCII plus the Latin-1
letters (which cover every accented character appearing in the sources). -/
def isWordCh (c : Char) : Bool :=
  c.isAlphanum || c == '_' ||
  (0xC0 ≤ c.toNat && c.toNat ≤ 0xFF && c.toNat != 0xD7 && c.toNat != 0xF7)

/-- `[\d\-\/]` -/
def isDigitDashSlash (c : Char) : Bool := c.isDigit || c == '-' || c == '/'

/-- `[^•\*\-\d]` -/
def isNotBulletDigit (c : Char) : Bool :=
  !(c == '•' || c == '*' || c == '-' || c.isDigit)

/-- `[^.]` -/
def isNotDot (c : Char) : Bool := c != '.'

/-- One `(?:,\d{3})` thousands group (deterministic fixed-width step). -/
def commaGroupStep (s : List Char) : Option (List Char) :=
  match s with
  | ',' :: a :: b :: c :: rest =>
      if a.isDigit && b.isDigit && c.isDigit then some rest else none
  | _ => none

/-- `\d+(?:\.\d{2})?` (the body of the common numeric capture). -/
def numBody : RE :=
  .seq (plusCls isDigitCh)
    (.qmark (.seq (litS ".") (.seq (.cls isDigitCh) (.cls isDigitCh))))

/-! ## Embedded patterns — `SpecializedScraper.sunat_patterns`
(specialized_scraper.py lines 36–41, all `re.IGNORECASE`) -/

/-- `(?:Código|N°|PROCEDIMIENTO)\s*[:.\-\s]*([A-Z0-9\-\.]+)` -/
def codigo_pattern : RE :=
  .seq (.alt (litS "Código") (.alt (litS "N°") (litS "PROCEDIMIENTO")))
    (.seq (.star isSpaceCh) (.seq (.star isSepCh) (.grp (plusCls isCodeCh))))

/-- `(?:Tasa|Derecho|Arancel)\s*[:.\-\s]*S/\.?\s*(\d+(?:\.\d{2})?)` -/
def tasa_pattern : RE :=
  .seq (.alt (litS "Tasa") (.alt (litS "Derecho") (litS "Arancel")))
    (.seq (.star isSpaceCh) (.seq (.star isSepCh)
      (.seq (litS "S/") (.seq (.qmark (litS "."))
        (.seq (.star isSpaceCh) (.grp numBody))))))

/-- `(\d+(?:\.\d{2})?)\s*%?\s*UIT` -/
def uit_pattern : RE :=
  .seq (.grp numBody)
    (.seq (.star isSpaceCh) (.seq (.qmark (litS "%"))
      (.seq (.star isSpaceCh) (litS "UIT"))))

/-- `(?:Plazo|Tiempo)\s*[:.\-\s]*(\d+)\s*(día|días|hábil|hábiles)`
(only `group(0)` is consumed by the source, so the unit alternation is
left uncaptured here). -/
def plazo_pattern : RE :=
  .seq (.alt (litS "Plazo") (litS "Tiempo"))
    (.seq (.star isSpaceCh) (.seq (.star isSepCh)
      (.seq (.grp (plusCls isDigitCh)) (.seq (.star isSpaceCh)
        (.alt (litS "día") (.alt (litS "días")
          (.alt (litS "hábil") (litS "hábiles"))))))))

/-! ## Embedded patterns — `TupaScraper` (tupa_scraper.py lines 74–75,
`_extract_tupa_code`, `_extract_cost_info`, legal patterns) -/

/-- `S/\.?\s*(\d+(?:\.\d{2})?)|(\d+(?:\.\d{2})?)\s*soles?`; the source reads
`group(1) or group(2)`, i.e. whichever branch captured. -/
def cost_pattern : RE :=
  .alt
    (.seq (litS "S/") (.seq (.qmark (litS "."))
      (.seq (.star isSpaceCh) (.grp numBody))))
    (.seq (.grp numBody) (.seq (.star isSpaceCh)
      (.seq (litS "sole") (.qmark (litS "s")))))

/-- `(\d+)\s*(día|días|hábil|hábiles|mes|meses|semana|semanas)` -/
def time_pattern : RE :=
  .seq (.grp (plusCls isDigitCh)) (.seq (.star isSpaceCh)
    (.alt (litS "día") (.alt (litS "días") (.alt (litS "hábil")
      (.alt (litS "hábiles") (.alt (litS "mes") (.alt (litS "meses")
        (.alt (litS "semana") (litS "semanas")))))))))

/-- `TUPA[:\s]*([A-Z0-9\-\.]+)` -/
def tupa_code_pat1 : RE :=
  .seq (litS "TUPA") (.seq (.star isColonSpaceCh) (.grp (plusCls isCodeCh)))

/-- `Código[:\s]*([A-Z0-9\-\.]+)` -/
def tupa_code_pat2 : RE :=
  .seq (litS "Código") (.seq (.star isColonSpaceCh) (.grp (plusCls isCodeCh)))

/-- `N°[:\s]*([A-Z0-9\-\.]+)` -/
def tupa_code_pat3 : RE :=
  .seq (litS "N°") (.seq (.star isColonSpaceCh) (.grp (plusCls isCodeCh)))

/-- `(\d+)\s*a\s*(\d+)\s*(día|días)` (extra time pattern, group(0) used). -/
def time_range_pattern : RE :=
  .seq (.grp (plusCls isDigitCh)) (.seq (.star isSpaceCh)
    (.seq (litS "a") (.seq (.star isSpaceCh)
      (.seq (plusCls isDigitCh) (.seq (.star isSpaceCh)
        (.alt (litS "día") (litS "días")))))))

/-- `Ley\s+N?°?\s*\d+[^\n]*` -/
def legal_ley_pat : RE :=
  .seq (litS "Ley") (.seq (plusCls isSpaceCh)
    (.seq (.qmark (litS "N")) (.seq (.qmark (litS "°"))
      (.seq (.star isSpaceCh) (.seq (plusCls isDigitCh) (.star isNotNl))))))

/-- `Decreto\s+\w+\s+N?°?\s*\d+[^\n]*` -/
def legal_decreto_pat : RE :=
  .seq (litS "Decreto") (.seq (plusCls isSpaceCh)
    (.seq (plusCls isWordCh) (.seq (plusCls isSpaceCh)
      (.seq (.qmark (litS "N")) (.seq (.qmark (litS "°"))
        (.seq (.star isSpaceCh) (.seq (plusCls isDigitCh) (.star isNotNl))))))))

/-- `Resolución\s+\w+\s+N?°?\s*\d+[^\n]*` -/
def legal_resolucion_pat : RE :=
  .seq (litS "Resolución") (.seq (plusCls isSpaceCh)
    (.seq (plusCls isWordCh) (.seq (plusCls isSpaceCh)
      (.seq (.qmark (litS "N")) (.seq (.qmark (litS "°"))
        (.seq (.star isSpaceCh) (.seq (plusCls isDigitCh) (.star isNotNl))))))))

/-! ## Embedded patterns — `SpecializedScraper._extract_legal_references`
(specialized_scraper.py lines 454–458) -/

/-- `Ley\s+N?°?\s*\d+[^\n.]*` -/
def sleg_ley_pat : RE :=
  .seq (litS "Ley") (.seq (plusCls isSpaceCh)
    (.seq (.qmark (litS "N")) (.seq (.qmark (litS "°"))
      (.seq (.star isSpaceCh) (.seq (plusCls isDigitCh) (.star isNotNlDot))))))

/-- `Decreto\s+\w+\s+N?°?\s*\d+[^\n.]*` -/
def sleg_decreto_pat : RE :=
  .seq (litS "Decreto") (.seq (plusCls isSpaceCh)
    (.seq (plusCls isWordCh) (.seq (plusCls isSpaceCh)
      (.seq (.qmark (litS "N")) (.seq (.qmark (litS "°"))
        (.seq (.star isSpaceCh) (.seq (plusCls isDigitCh) (.star isNotNlDot))))))))

/-- `Resolución\s+\w*\s*N?°?\s*\d+[^\n.]*` -/
def sleg_resolucion_pat : RE :=
  .seq (litS "Resolución") (.seq (plusCls isSpaceCh)
    (.seq (.star isWordCh) (.seq (.star isSpaceCh)
      (.seq (.qmark (litS "N")) (.seq (.qmark (litS "°"))
        (.seq (.star isSpaceCh) (.seq (plusCls isDigitCh) (.star isNotNlDot))))))))

/-! ## Embedded patterns — `PDFProcessor.patterns`
(pdf_processor.py lines 39–46, all `re.IGNORECASE`) -/

/-- `(?:Código|N°|TUPA)\s*[:.\-\s]*([A-Z0-9\-\.]+)` -/
def pdf_tupa_code_pat : RE :=
  .seq (.alt (litS "Código") (.alt (litS "N°") (litS "TUPA")))
    (.seq (.star isSpaceCh) (.seq (.star isSepCh) (.grp (plusCls isCodeCh))))

/-- `S/\.?\s*(\d+(?:,\d{3})*(?:\.\d{2})?)` -/
def pdf_cost_soles_pat : RE :=
  .seq (litS "S/") (.seq (.qmark (litS "."))
    (.seq (.star isSpaceCh)
      (.grp (.seq (plusCls isDigitCh) (.seq (.dstar commaGroupStep)
        (.qmark (.seq (litS ".") (.seq (.cls isDigitCh) (.cls isDigitCh)))))))))

/-- `(\d+(?:\.\d{2})?)\s*%?\s*UIT` (same regex as the SUNAT UIT pattern). -/
def pdf_cost_uit_pat : RE := uit_pattern

/-- `(\d+)\s*(?:día|días|hora|horas|mes|meses)\s*(?:hábil|hábiles)?`
(the source consumes `group(1)`). -/
def pdf_processing_time_pat : RE :=
  .seq (.grp (plusCls isDigitCh)) (.seq (.star isSpaceCh)
    (.seq (.alt (litS "día") (.alt (litS "días") (.alt (litS "hora")
        (.alt (litS "horas") (.alt (litS "mes") (litS "meses"))))))
      (.seq (.star isSpaceCh) (.qmark (.alt (litS "hábil") (litS "hábiles"))))))

/-- `(?:Ley|Decreto|Resolución)\s+(?:N°?\s*)?[\d\-\/]+` (no capture group:
`findall` yields the full matches). -/
def pdf_legal_ref_pat : RE :=
  .seq (.alt (litS "Ley") (.alt (litS "Decreto") (litS "Resolución")))
    (.seq (plusCls isSpaceCh)
      (.seq (.qmark (.seq (litS "N") (.seq (.qmark (litS "°")) (.star isSpaceCh))))
        (plusCls isDigitDashSlash)))

/-- `(?:[a-z]\)|•|\*|\-|\d+\.)\s*([^•\*\-\d][^.]{10,100})` (IGNORECASE, so
`[a-z]` also matches capitals). -/
def pdf_req_item_pat : RE :=
  .seq (.alt (.seq (.cls (fun c => c.isAlpha)) (litS ")"))
      (.alt (litS "•") (.alt (litS "*") (.alt (litS "-")
        (.seq (plusCls isDigitCh) (litS "."))))))
    (.seq (.star isSpaceCh)
      (.grp (.seq (.cls isNotBulletDigit) (.reps isNotDot 10 100))))

/-! ## Embedded patterns — `SpecializedScraper._extract_gob_procedure`
(specialized_scraper.py lines 249 and 254; applied to lowercased text) -/

/-- `s/\.?\s*(\d+(?:\.\d{2})?)` -/
def gob_cost_pat : RE :=
  .seq (litS "s/") (.seq (.qmark (litS "."))
    (.seq (.star isSpaceCh) (.grp numBody)))

/-- `(\d+)\s*(día|días|hora|horas)` (group(0) used). -/
def gob_time_pat : RE :=
  .seq (.grp (plusCls isDigitCh)) (.seq (.star isSpaceCh)
    (.alt (litS "día") (.alt (litS "días") (.alt (litS "hora") (litS "horas")))))

/-! ## Further Python string helpers -/

/-- Python `str.replace(old, new)` (all occurrences, left to right). -/
def replaceAll : Nat → List Char → List Char → List Char → List Char
  | 0, s, _, _ => s
  | fuel + 1, s, old, new =>
      match s with
      | [] => []
      | c :: cs =>
          if !old.isEmpty && startsWithL old s then
            new ++ replaceAll fuel (s.drop old.length) old new
          else c :: replaceAll fuel cs old new

def pyReplace (s old new : List Char) : List Char :=
  replaceAll s.length s old new

def pyReplaceS (s old new : String) : String :=
  String.mk (pyReplace s.data old.data new.data)

/-- Python `str.split()` (split on whitespace runs, dropping empties). -/
def pySplitWsAux : List Char → List Char → List (List Char)
  | acc, [] => if acc.isEmpty then [] else [acc.reverse]
  | acc, c :: cs =>
      if isSpaceCh c then
        if acc.isEmpty then pySplitWsAux [] cs else acc.reverse :: pySplitWsAux [] cs
      else pySplitWsAux (c :: acc) cs

def pySplitWs (s : List Char) : List (List Char) := pySplitWsAux [] s

/-- Maximal word-character runs in order of appearance; a run of length at
least `n` is exactly a match of `\b\w{n,}\b` under `re.findall`. -/
def wordRunsAux : List Char → List Char → List (List Char)
  | acc, [] => if acc.isEmpty then [] else [acc.reverse]
  | acc, c :: cs =>
      if isWordCh c then wordRunsAux (c :: acc) cs
      else if acc.isEmpty then wordRunsAux [] cs
      else acc.reverse :: wordRunsAux [] cs

def wordRuns (s : List Char) : List (List Char) := wordRunsAux [] s

/-- `string.punctuation` membership (ASCII 33–47, 58–64, 91–96, 123–126). -/
def isPyPunct (c : Char) : Bool :=
  (33 ≤ c.toNat && c.toNat ≤ 47) || (58 ≤ c.toNat && c.toNat ≤ 64) ||
  (91 ≤ c.toNat && c.toNat ≤ 96) || (123 ≤ c.toNat && c.toNat ≤ 126)

def joinSpace (xs : List String) : String := String.intercalate " " xs

/-- Suffix after the first occurrence of `needle` (none when absent). -/
def dropAfterSub (needle : List Char) : List Char → Option (List Char)
  | [] => if needle.isEmpty then some [] else none
  | c :: cs =>
      if startsWithL needle (c :: cs) then some ((c :: cs).drop needle.length)
      else dropAfterSub needle cs

/-- `urlparse(url).path`: strip fragment and query, then everything from the
first slash after the `scheme://netloc` part (the sources only call this on
absolute http(s) URLs; a scheme-less string is itself the path). -/
def urlPath (url : List Char) : List Char :=
  let noFrag := url.takeWhile (fun c => c != '#')
  let noQuery := noFrag.takeWhile (fun c => c != '?')
  match dropAfterSub "://".data noQuery with
  | some rest => rest.dropWhile (fun c => c != '/')
  | none => noQuery

/-- `"{:0Nd}".format n` for nonnegative `n`. -/
def natPad (w : Nat) (n : Nat) : String :=
  let s := toString n
  String.mk (List.replicate (w - s.length) '0') ++ s

/-! ## The canonical record — `ProcedureData` (tupa_scraper.py lines 33–53).
Costs are Python floats in the source, modelled as `Rat`. -/

structure ProcedureData where
  name : String
  description : String
  entity_name : String
  entity_code : String
  tupa_code : String
  requirements : List String
  cost : Rat
  currency : String
  processing_time : String
  legal_basis : List String
  channels : List String
  category : String
  subcategory : String
  is_free : Bool
  is_online : Bool
  difficulty_level : String
  source_url : String
  keywords : List String
deriving Repr, DecidableEq

/-! ## `TupaScraper` (tupa_scraper.py)

DOM-level results of BeautifulSoup queries (selector hits, list items,
paragraph texts) are inputs; everything computed from them or from the page
text is embedded. -/

/-- The free words of `TupaScraper._extract_cost_info`'s override
(tupa_scraper.py line 401). -/
def free_words : List String := ["gratuito", "gratis", "sin costo"]

/-- The free-word condition `any(word in text.lower() for word in [...])`
of `_extract_cost_info` (line 401). -/
def free_words_present (t : List Char) : Bool :=
  free_words.any (fun w => containsL (lowStr t) w.data)

namespace TupaScraper

/-- `self.categories` (lines 77–86); a Python dict iterates in insertion
order, so a list of pairs is faithful. -/
def categories : List (String × List String) :=
  [("identidad", ["dni", "pasaporte", "cedula", "identificacion", "reniec"]),
   ("empresarial", ["ruc", "empresa", "negocio", "comercio", "sunarp", "sociedad"]),
   ("educacion", ["titulo", "grado", "certificado", "educacion", "universidad"]),
   ("salud", ["discapacidad", "salud", "medico", "hospital", "minsa"]),
   ("vehicular", ["licencia", "conducir", "vehiculo", "transporte", "mtc"]),
   ("laboral", ["trabajo", "empleo", "laboral", "planilla", "mintra"]),
   ("tributario", ["tributo", "impuesto", "sunat", "fiscal", "declaracion"]),
   ("municipal", ["municipal", "licencia", "funcionamiento", "local", "construccion"])]

/-- `_classify_procedure` (lines 464–472). -/
def classify_procedure (name description : String) : String :=
  let text := lowStr (name ++ " " ++ description).data
  match categories.find? (fun ck => ck.2.any (fun kw => containsL text kw.data)) with
  | some ck => ck.1
  | none => "general"

/-- `_extract_cost_info` (lines 384–404): first the cost regex, then the
free-words override; currency is always "PEN". -/
def extract_cost_info (text : List Char) : Rat × String :=
  let cost : Rat :=
    match reFindCap cost_pattern text with
    | some cs => parseDecQ cs
    | none => 0
  let cost := if free_words_present text then 0 else cost
  (cost, "PEN")

/-- `_extract_tupa_code` (lines 337–354): three patterns tried in order. -/
def extract_tupa_code (text : List Char) : String :=
  match [tupa_code_pat1, tupa_code_pat2, tupa_code_pat3].findSome?
      (fun p => reFindCap p text) with
  | some cs => String.mk cs
  | none => ""

/-- `_extract_processing_time` (lines 405–426). -/
def extract_processing_time (text : List Char) : String :=
  match reFindMatch time_pattern text with
  | some m => String.mk m
  | none =>
      match [time_range_pattern, litS "inmediato", litS "al momento",
          litS "tiempo real"].findSome? (fun p => reFindMatch p text) with
      | some m => String.mk m
      | none => "No especificado"

/-- `_extract_legal_basis` (lines 427–442): `findall` per pattern, first 3
matches each, concatenated in pattern order. -/
def extract_legal_basis (text : List Char) : List String :=
  (([legal_ley_pat, legal_decreto_pat, legal_resolucion_pat].map
    (fun p => ((reFindAll p text).map (fun mc => String.mk mc.1)).take 3))).flatten

/-- `_extract_channels` (lines 444–462). -/
def extract_channels (text : List Char) : List String :=
  let t := lowStr text
  let has := fun (w : String) => containsL t w.data
  let cs :=
    (if has "presencial" || has "oficina" then ["Presencial"] else []) ++
    (if has "virtual" || has "línea" || has "web" then ["Virtual"] else []) ++
    (if has "teléfono" || has "telefónico" then ["Telefónico"] else []) ++
    (if has "correo" || has "email" then ["Correo electrónico"] else [])
  if cs.isEmpty then ["Presencial"] else cs

def complex_words : List String :=
  ["certificado", "autenticado", "notarizado", "apostillado"]

/-- `_assess_difficulty` (lines 474–495). -/
def assess_difficulty (requirements : List String) (cost : Rat) : String :=
  let score := (if requirements.length > 5 then 1 else 0)
    + (if cost > 100 then 1 else 0)
    + (if (complex_words.any
          (fun w => containsL (lowStr (joinSpace requirements).data) w.data))
        then 1 else 0)
  if score ≤ 1 then "easy" else if score == 2 then "medium" else "hard"

def stop_words : List String :=
  ["el", "la", "de", "que", "y", "a", "en", "un", "es", "se", "no", "te",
   "lo", "le", "da", "su", "por", "son", "con", "para", "al", "del", "los"]

/-- `_extract_keywords` (lines 497–514).  CPython materialises the word list
through `set`, whose iteration order is unspecified; the embedding fixes
first-occurrence order (`dedup`), and no claim depends on the order. -/
def extract_keywords (name description : String) : List String :=
  let text := lowStr (name ++ " " ++ description).data
  let cleaned := text.filter (fun c => !isPyPunct c)
  let words := (pySplitWs cleaned).filter
    (fun w => w.length > 3 && !(stop_words.any (fun sw => sw.data == w)))
  ((words.map String.mk).dedup).take 10

/-- `_check_online_availability` (lines 516–519). -/
def check_online_availability (channels : List String) : Bool :=
  channels.any (fun ch =>
    ["virtual", "línea", "web", "digital"].any
      (fun kw => containsL (lowStr ch.data) kw.data))

/-- `_extract_entity_info` (lines 296–330): URL-keyed defaults, then the
first entity-selector hit shorter than 100 characters overrides the name. -/
def extract_entity_info (url : String) (entityHits : List String) : String × String :=
  let base :=
    if containsS url "sunat" then ("SUNAT", "SUNAT")
    else if containsS url "reniec" then ("RENIEC", "RENIEC")
    else if containsS url "sunarp" then ("SUNARP", "SUNARP")
    else if containsS url "minsa" || containsS url "salud" then ("MINSA", "MINSA")
    else if containsS url "municap" || containsS url "municipal" then
      ("Municipalidad", "MUNI")
    else ("Gobierno del Perú", "GOB")
  match entityHits.find? (fun t => t.length < 100) with
  | some t => (t, base.2)
  | none => base

/-- `_extract_description` (lines 272–294). -/
def extract_description (descHits : List String) (paragraphs : List String) : String :=
  match descHits.find? (fun t => t.length > 20) with
  | some t => String.mk (t.data.take 1000)
  | none =>
      if paragraphs.isEmpty then ""
      else String.mk ((joinSpace ((paragraphs.take 3).map stripS)).data.take 1000)

def bullet_starters : List String := ["•", "-", "*", "1.", "2.", "3."]

/-- `_extract_requirements` (lines 356–383): DOM list items (inputs) filtered
by length; bullet-line fallback over the page text when none survive. -/
def extract_requirements (items : List String) (text : String) : List String :=
  let reqs := items.filter (fun t => 5 < t.length && t.length < 300)
  let reqs :=
    if reqs.isEmpty then
      ((text.data.splitOn '\n').map (fun l => String.mk (stripL l))).filter
        (fun line =>
          bullet_starters.any (fun st => containsS line st) &&
          10 < line.length && line.length < 300)
    else reqs
  reqs.take 10

/-- DOM-level inputs of `_scrape_single_procedure`: HTTP status and the
BeautifulSoup query results the helpers consume. -/
structure BasicPage where
  status : Nat
  nameHits : List String
  descHits : List String
  paragraphs : List String
  entityHits : List String
  reqItems : List String
  text : String
  url : String

/-- `_scrape_single_procedure` (lines 205–256). -/
def scrape_single_procedure (page : BasicPage) : Option ProcedureData :=
  if page.status != 200 then none
  else
    let name := ((page.nameHits.find?
      (fun t => 10 < t.length && t.length < 200)).getD "")
    if name = "" then none
    else
      let description := extract_description page.descHits page.paragraphs
      let entity := extract_entity_info page.url page.entityHits
      let tupa := extract_tupa_code page.text.data
      let reqs := extract_requirements page.reqItems page.text
      let costInfo := extract_cost_info page.text.data
      let ptime := extract_processing_time page.text.data
      let legal := extract_legal_basis page.text.data
      let chans := extract_channels page.text.data
      let category := classify_procedure name description
      let difficulty := assess_difficulty reqs costInfo.1
      let kws := extract_keywords name description
      some
        { name := name
          description := description
          entity_name := entity.1
          entity_code := entity.2
          tupa_code := tupa
          requirements := reqs
          cost := costInfo.1
          currency := costInfo.2
          processing_time := ptime
          legal_basis := legal
          channels := chans
          category := category
          subcategory := ""
          is_free := costInfo.1 == 0
          is_online := check_online_availability chans
          difficulty_level := difficulty
          source_url := page.url
          keywords := kws }

/-- One curated SUNAT record of `_scrape_sunat` (lines 539–608). -/
def mkSunatCurated (name description tupa_code : String)
    (requirements : List String) (cost : Rat) (ptime : String) : ProcedureData :=
  { name := name, description := description
    entity_name := "SUNAT", entity_code := "SUNAT"
    tupa_code := tupa_code, requirements := requirements
    cost := cost, currency := "PEN", processing_time := ptime
    legal_basis := ["Decreto Legislativo N° 816 - Código Tributario"]
    channels := ["Presencial", "Virtual"]
    category := "tributario", subcategory := "ruc"
    is_free := true, is_online := true, difficulty_level := "easy"
    source_url := "https://www.sunat.gob.pe"
    keywords := ["ruc", "tributario", "registro", "contribuyente"] }

def scrape_sunat : List ProcedureData :=
  [mkSunatCurated "Inscripción al RUC - Persona Natural"
      "Registro Único del Contribuyente para personas naturales que realizan actividades económicas"
      "SUNAT-001"
      ["DNI del solicitante vigente",
       "Recibo de agua, luz o teléfono (no mayor a 2 meses)",
       "Contrato de alquiler o título de propiedad del local",
       "Declaración jurada de actividades económicas"] 0 "Inmediato",
   mkSunatCurated "Inscripción al RUC - Persona Jurídica"
      "Registro de empresas y sociedades en el RUC" "SUNAT-002"
      ["Escritura pública de constitución", "DNI del representante legal",
       "Recibo de servicios del domicilio fiscal",
       "Vigencia de poder del representante legal"] 0 "1 día hábil",
   mkSunatCurated "Suspensión Temporal del RUC"
      "Suspensión de actividades económicas en el RUC" "SUNAT-003"
      ["RUC activo y al día en obligaciones", "Declaración jurada de suspensión",
       "No tener deudas tributarias pendientes"] 0 "Inmediato"]

/-- One curated RENIEC record of `_scrape_reniec` (lines 610–681); the
source hard-codes `is_free=False` with cost 32.20. -/
def mkReniecCurated (name description tupa_code : String)
    (requirements : List String) (ptime : String) : ProcedureData :=
  { name := name, description := description
    entity_name := "RENIEC", entity_code := "RENIEC"
    tupa_code := tupa_code, requirements := requirements
    cost := (161 : Rat) / 5, currency := "PEN", processing_time := ptime
    legal_basis := ["Ley Nº 26497 - Ley Orgánica del RENIEC"]
    channels := ["Presencial"]
    category := "identidad", subcategory := "dni"
    is_free := false, is_online := false, difficulty_level := "easy"
    source_url := "https://www.reniec.gob.pe"
    keywords := ["dni", "duplicado", "identificacion", "reniec"] }

def scrape_reniec : List ProcedureData :=
  [mkReniecCurated "Duplicado de DNI por Deterioro"
      "Obtención de un nuevo DNI cuando el documento se encuentra deteriorado o ilegible"
      "RENIEC-001"
      ["DNI deteriorado original", "Recibo de pago por derecho de trámite",
       "Declaración jurada de deterioro", "Foto actual tamaño carné"] "48 horas",
   mkReniecCurated "Duplicado de DNI por Pérdida"
      "Emisión de nuevo DNI por pérdida del documento original" "RENIEC-002"
      ["Denuncia policial por pérdida", "Recibo de pago por derecho de trámite",
       "Declaración jurada de pérdida", "Partida de nacimiento certificada",
       "Foto actual tamaño carné"] "7 días hábiles",
   mkReniecCurated "Primera Obtención de DNI"
      "Obtención del primer DNI para mayores de edad" "RENIEC-003"
      ["Partida de nacimiento certificada", "Recibo de pago por derecho de trámite",
       "Presencia personal del solicitante", "Dos testigos con DNI vigente"]
      "7 días hábiles"]

/-- One curated SUNARP record of `_scrape_sunarp` (lines 683–754); here
`is_free` is computed as `cost == 0`. -/
def mkSunarpCurated (name description tupa_code : String)
    (requirements : List String) (cost : Rat) (ptime : String) : ProcedureData :=
  { name := name, description := description
    entity_name := "SUNARP", entity_code := "SUNARP"
    tupa_code := tupa_code, requirements := requirements
    cost := cost, currency := "PEN", processing_time := ptime
    legal_basis := ["Ley Nº 26366 - Ley de creación del SUNARP"]
    channels := ["Presencial", "Virtual"]
    category := "empresarial", subcategory := "registro"
    is_free := cost == 0, is_online := true, difficulty_level := "medium"
    source_url := "https://www.sunarp.gob.pe"
    keywords := ["registro", "publicos", "empresa", "propiedad"] }

def scrape_sunarp : List ProcedureData :=
  [mkSunarpCurated "Inscripción de Constitución de SAC"
      "Registro de constitución de Sociedad Anónima Cerrada en Registros Públicos"
      "SUNARP-001"
      ["Minuta de constitución", "Escritura pública de constitución",
       "Pago de derechos registrales", "Formulario de solicitud registral",
       "Copia del RUC de la empresa"] 65 "7 días hábiles",
   mkSunarpCurated "Inscripción de Transferencia de Propiedad Vehicular"
      "Registro de cambio de propietario de vehículo automotor" "SUNARP-002"
      ["Tarjeta de propiedad original", "DNI del vendedor y comprador",
       "Contrato de compraventa", "Certificado de gravámenes",
       "Pago de derechos registrales"] 38 "5 días hábiles",
   mkSunarpCurated "Búsqueda de Antecedentes Registrales"
      "Consulta de información registral de personas naturales o jurídicas"
      "SUNARP-003"
      ["Solicitud de búsqueda", "Datos de la persona o empresa a consultar",
       "Pago de tasa correspondiente"] 15 "Inmediato"]

end TupaScraper

/-! ## `SpecializedScraper` (specialized_scraper.py) -/

namespace SpecializedScraper

/-- `_extract_text_by_selectors` (lines 403–411): first selector hit that is
nonempty and longer than 5 characters, truncated to `max_length`. -/
def extract_text_by_selectors (hits : List String) (maxLength : Nat := 200) : String :=
  match hits.find? (fun t => t != "" && t.length > 5) with
  | some t => String.mk (t.data.take maxLength)
  | none => ""

/-- `despa-pg\.([^.]+)` (line 597, case-sensitive). -/
def despa_pg_pat : RE :=
  .seq (.lits "despa-pg.".data) (.grp (plusCls (fun c => c != '.')))

/-- `_generate_code_from_url` (lines 591–606).  The final fallback formats
`hash(url) % 10000` — CPython's per-process salted string hash, passed here
as the run parameter `pyHash`. -/
def generate_code_from_url (pyHash : String → Nat) (url : String) : String :=
  let path := urlPath url.data
  let viaDespa : Option String :=
    if containsL path "despa-pg".data then
      match reFindCap despa_pg_pat path with
      | some g => some ("SUNAT-PG-" ++ String.mk (g.map Char.toUpper))
      | none => none
    else none
  match viaDespa with
  | some c => c
  | none =>
      let parts := path.splitOn '/'
      if parts.length > 1 then
        "GOB-" ++ String.mk
          (((pyReplace (pyReplace (parts.getLastD []) ".htm".data [])
            "-".data []).map Char.toUpper).take 10)
      else "PROC-" ++ natPad 4 (pyHash url % 10000)

/-- `_extract_requirements_sunat` (lines 413–434): list items discovered near
requirement-keyword text nodes (DOM input, in discovery order, duplicates
included), length-filtered, then `list(set(...))[:8]`.  CPython's set order
is unspecified; the embedding uses first-occurrence order, and no claim
depends on the order. -/
def extract_requirements_sunat (items : List String) : List String :=
  ((items.filter (fun t => 10 < t.length && t.length < 200)).dedup).take 8

/-- `_extract_requirements_generic` (lines 436–449): all list items of the
page (DOM input), length-filtered, first 6. -/
def extract_requirements_generic (items : List String) : List String :=
  (items.filter (fun t => 5 < t.length && t.length < 200)).take 6

/-- `_extract_legal_references` (lines 451–465): `findall` per pattern,
first 2 each. -/
def extract_legal_references (text : List Char) : List String :=
  (([sleg_ley_pat, sleg_decreto_pat, sleg_resolucion_pat].map
    (fun p => ((reFindAll p text).map (fun mc => String.mk mc.1)).take 2))).flatten

/-- `_categorize_sunat_procedure` (lines 467–480): keyword buckets over
name+description+url, defaulting to "tributario". -/
def categorize_sunat_procedure (name description url : String) : String :=
  let text := lowStr (name ++ " " ++ description ++ " " ++ url).data
  let has := fun (w : String) => containsL text w.data
  if has "importac" || has "export" || has "aduaner" then "aduanero"
  else if has "ruc" || has "tributar" || has "impuest" then "tributario"
  else if has "deposit" || has "almacen" then "deposito"
  else if has "transit" || has "transport" then "transito"
  else "tributario"

/-- `_get_sunat_subcategory` (lines 482–497). -/
def get_sunat_subcategory (url : String) : String :=
  if containsS url "importacion" then "importacion"
  else if containsS url "exportacion" then "exportacion"
  else if containsS url "perfeccionam" then "perfeccionamiento"
  else if containsS url "deposito" then "deposito"
  else if containsS url "transito" then "transito"
  else if containsS url "especiales" then "especiales"
  else "general"

/-- `_assess_difficulty_sunat` (lines 538–553). -/
def assess_difficulty_sunat (requirements : List String) (cost : Rat) : String :=
  let score := (if requirements.length > 6 then 1 else 0)
    + (if cost > 1000 then 1 else 0)
    + (if (["declaracion", "aforo", "valorizacion", "arancel"].any
          (fun w => containsL (lowStr (joinSpace requirements).data) w.data))
        then 1 else 0)
  if score ≤ 1 then "easy" else if score == 2 then "medium" else "hard"

/-- `_assess_difficulty_generic` (lines 555–564). -/
def assess_difficulty_generic (requirements : List String) (cost : Rat) : String :=
  let score := (if requirements.length > 4 then 1 else 0)
    + (if cost > 50 then 1 else 0)
  if score ≤ 1 then "easy" else "medium"

/-- `_extract_keywords_sunat` (lines 566–578). -/
def extract_keywords_sunat (url : String) : List String :=
  ["sunat", "aduanas", "tributario"] ++
  (if containsS url "importacion" then ["importacion", "mercancia"] else []) ++
  (if containsS url "exportacion" then ["exportacion", "comercio"] else []) ++
  (if containsS url "transito" then ["transito", "transporte"] else [])

/-- `_extract_keywords_generic` (lines 580–589): `\b\w{4,}\b` runs of the
lowered text, `set`-deduplicated (first-occurrence order here), stop-word
filtered, first 6. -/
def extract_keywords_generic (name description : String) : List String :=
  let text := lowStr (name ++ " " ++ description).data
  let words := ((wordRuns text).filter (fun w => w.length ≥ 4)).map String.mk
  (words.dedup.filter (fun w =>
    !(["gobierno", "peru", "procedimiento", "tramite", "solicitud"].any
      (fun sw => sw == w)))).take 6

/-- `_extract_entity_from_gob_pe` (lines 499–518). -/
def extract_entity_from_gob_pe (text url : String) : String × String :=
  let t := lowStr text.data
  if containsL t "reniec".data || containsS url "dni" then ("RENIEC", "RENIEC")
  else if containsL t "sunat".data then ("SUNAT", "SUNAT")
  else if containsL t "sunarp".data then ("SUNARP", "SUNARP")
  else ("Gobierno del Perú", "GOB")

/-- `_categorize_generic_procedure` (lines 520–536). -/
def categorize_generic_procedure (name description : String) : String :=
  let text := lowStr (name ++ " " ++ description).data
  let table : List (String × List String) :=
    [("identidad", ["dni", "pasaporte", "identificacion"]),
     ("empresarial", ["empresa", "negocio", "ruc"]),
     ("vehicular", ["licencia", "conducir", "vehiculo"]),
     ("salud", ["salud", "medico", "sanitario"]),
     ("educacion", ["educacion", "titulo", "certificado"])]
  match table.find? (fun ck => ck.2.any (fun kw => containsL text kw.data)) with
  | some ck => ck.1
  | none => "general"

/-- DOM-level inputs of `_extract_sunat_procedure`. -/
structure SunatPage where
  titleHits : List String
  descHits : List String
  text : String
  reqItems : List String
  url : String

/-- The cost block of `_extract_sunat_procedure` (lines 170–184): the UIT
pattern is consulted first; the explicit tasa amount only when no UIT match
exists; UIT values below 1 are treated as percentages of 5150. -/
def sunat_cost (text : List Char) : Rat :=
  match reFindCap uit_pattern text with
  | some g =>
      let uit_value := parseDecQ g
      if uit_value < 1 then uit_value * 5150 / 100 else uit_value * 5150
  | none =>
      match reFindCap tasa_pattern text with
      | some g => parseDecQ g
      | none => 0

/-- `_extract_sunat_procedure` (lines 146–222).  The UIT pattern is
consulted first; the explicit tasa amount only when no UIT match exists. -/
def extract_sunat_procedure (pyHash : String → Nat) (page : SunatPage) :
    ProcedureData :=
  let name0 := extract_text_by_selectors page.titleHits 200
  let name :=
    if name0 = "" then
      if containsS page.url "despa-pg" then
        "Procedimiento Aduanero " ++
          pyReplaceS (pyReplaceS ((page.url.splitOn "/").getLastD "") ".htm" "")
            "despa-pg." "PG-"
      else "Procedimiento SUNAT"
    else name0
  let description := extract_text_by_selectors page.descHits 500
  let text := page.text.data
  let tupa_code :=
    match reFindCap codigo_pattern text with
    | some g => String.mk g
    | none => generate_code_from_url pyHash page.url
  let cost : Rat := sunat_cost text
  let ptime :=
    match reFindMatch plazo_pattern text with
    | some m => String.mk m
    | none => "No especificado"
  let reqs := extract_requirements_sunat page.reqItems
  { name := name
    description := description
    entity_name := "SUNAT", entity_code := "SUNAT"
    tupa_code := tupa_code
    requirements := reqs
    cost := cost, currency := "PEN"
    processing_time := ptime
    legal_basis := extract_legal_references text
    channels := ["Presencial", "Virtual"]
    category := categorize_sunat_procedure name description page.url
    subcategory := get_sunat_subcategory page.url
    is_free := cost == 0
    is_online := true
    difficulty_level := assess_difficulty_sunat reqs cost
    source_url := page.url
    keywords := extract_keywords_sunat page.url }

/-- DOM-level inputs of `_extract_gob_procedure`: selector hits, the page
text, the info-section texts each with their own list items, and the page's
full list-item pool for the generic fallback. -/
structure GobPage where
  titleHits : List String
  descHits : List String
  text : String
  infoSections : List (String × List String)
  allListItems : List String
  url : String

/-- The section-scanning loop of `_extract_gob_procedure`
(lines 244–261): each matching section may overwrite cost and
processing time and extend requirements. -/
def gobScanSections (sections : List (String × List String)) :
    Rat × String × List String :=
  sections.foldl
    (fun (acc : Rat × String × List String) sec =>
      let t := lowStr sec.1.data
      let cost :=
        if containsL t "costo".data || containsL t "precio".data then
          match reFindCap gob_cost_pat t with
          | some g => parseDecQ g
          | none => acc.1
        else acc.1
      let ptime :=
        if containsL t "tiempo".data || containsL t "plazo".data then
          match reFindMatch gob_time_pat t with
          | some m => String.mk m
          | none => acc.2.1
        else acc.2.1
      let reqs :=
        if containsL t "requisito".data then
          if sec.2.isEmpty then acc.2.2 else acc.2.2 ++ sec.2.map stripS
        else acc.2.2
      (cost, ptime, reqs))
    (0, "No especificado", [])

/-- `_extract_gob_procedure` (lines 224–290). -/
def extract_gob_procedure (pyHash : String → Nat) (page : GobPage) :
    ProcedureData :=
  let name := extract_text_by_selectors page.titleHits 200
  let description := extract_text_by_selectors page.descHits 200
  let entity := extract_entity_from_gob_pe page.text page.url
  let scanned := gobScanSections page.infoSections
  let cost := scanned.1
  let ptime := scanned.2.1
  let reqs0 := scanned.2.2
  let reqs :=
    if reqs0.isEmpty then extract_requirements_generic page.allListItems
    else reqs0
  let nameOut := if name = "" then "Procedimiento gob.pe" else name
  let descOut := if description = "" then "Procedimiento gubernamental" else description
  { name := nameOut
    description := descOut
    entity_name := entity.1, entity_code := entity.2
    tupa_code := generate_code_from_url pyHash page.url
    requirements := reqs
    cost := cost, currency := "PEN"
    processing_time := ptime
    legal_basis := extract_legal_references page.text.data
    channels := ["Presencial", "Virtual"]
    category := categorize_generic_procedure name description
    subcategory := ""
    is_free := cost == 0
    is_online := true
    difficulty_level := assess_difficulty_generic reqs cost
    source_url := page.url
    keywords := extract_keywords_generic name description }

/-- `_extract_reniec_procedure` (lines 292–337): fixed cost 32.20, default
requirement set for "duplicado" procedures when the page yields none. -/
def extract_reniec_procedure (titleHits descHits allListItems : List String)
    (pyHash : String → Nat) (url : String) : ProcedureData :=
  let name := extract_text_by_selectors titleHits 200
  let description := extract_text_by_selectors descHits 200
  let reqs0 := extract_requirements_generic allListItems
  let reqs :=
    if reqs0.isEmpty then
      if containsL (lowStr name.data) "duplicado".data then
        ["DNI deteriorado o denuncia policial",
         "Recibo de pago por derecho de trámite",
         "Foto actual tamaño carné",
         "Presencia personal del solicitante"]
      else reqs0
    else reqs0
  { name := if name = "" then "Trámite RENIEC" else name
    description := if description = "" then "Trámite de identificación" else description
    entity_name := "RENIEC", entity_code := "RENIEC"
    tupa_code := generate_code_from_url pyHash url
    requirements := reqs
    cost := (161 : Rat) / 5, currency := "PEN"
    processing_time := "48 horas"
    legal_basis := ["Ley Nº 26497 - Ley Orgánica del RENIEC"]
    channels := ["Presencial"]
    category := "identidad", subcategory := "dni"
    is_free := false, is_online := false
    difficulty_level := "easy"
    source_url := url
    keywords := ["dni", "reniec", "identificacion", "duplicado"] }

/-- `_extract_mtc_procedure` (lines 339–368). -/
def extract_mtc_procedure (titleHits : List String) (url : String) : ProcedureData :=
  let name := extract_text_by_selectors titleHits 200
  { name := if name = "" then "TUPA Digital MTC" else name
    description := "TUPA Digital del Ministerio de Transportes y Comunicaciones"
    entity_name := "MTC", entity_code := "MTC"
    tupa_code := "MTC-DIGITAL"
    requirements := ["Consultar en plataforma digital"]
    cost := 0, currency := "PEN"
    processing_time := "Consulta inmediata"
    legal_basis := ["Ley Nº 27791 - Ley de Organización y Funciones del MTC"]
    channels := ["Virtual"]
    category := "vehicular", subcategory := "tupa"
    is_free := true, is_online := true
    difficulty_level := "easy"
    source_url := url
    keywords := ["mtc", "transporte", "tupa", "digital"] }

/-- `_extract_generic_procedure` (lines 370–399). -/
def extract_generic_procedure (titleHits descHits allListItems : List String)
    (pyHash : String → Nat) (url : String) : ProcedureData :=
  let name := extract_text_by_selectors titleHits 200
  let description := extract_text_by_selectors descHits 200
  { name := if name = "" then "Procedimiento Genérico" else name
    description := if description = "" then "Procedimiento gubernamental" else description
    entity_name := "Gobierno del Perú", entity_code := "GOB"
    tupa_code := generate_code_from_url pyHash url
    requirements := extract_requirements_generic allListItems
    cost := 0, currency := "PEN"
    processing_time := "No especificado"
    legal_basis := []
    channels := ["Presencial"]
    category := "general", subcategory := ""
    is_free := true, is_online := false
    difficulty_level := "medium"
    source_url := url
    keywords := extract_keywords_generic name description }

end SpecializedScraper

/-! ## `PDFProcessor` (pdf_processor.py)

The PDF/Excel reading libraries are external: page texts, extracted tables
and data-frame row counts are inputs; all text processing is embedded. -/

namespace PDFProcessor

/-- `os.path.basename` (POSIX). -/
def baseName (p : String) : String :=
  String.mk ((p.data.splitOn '/').getLastD [])

/-- Marker `PROCEDIMIENTO\s+N?°?\s*[\d\-\.]+` (line 375). -/
def pdf_marker_1 : RE :=
  .seq (litS "PROCEDIMIENTO") (.seq (plusCls isSpaceCh)
    (.seq (.qmark (litS "N")) (.seq (.qmark (litS "°"))
      (.seq (.star isSpaceCh)
        (plusCls (fun c => c.isDigit || c == '-' || c == '.'))))))

/-- Marker `CÓDIGO\s+TUPA\s*[:.\-]\s*[A-Z0-9\-\.]+` (line 376). -/
def pdf_marker_2 : RE :=
  .seq (litS "CÓDIGO") (.seq (plusCls isSpaceCh) (.seq (litS "TUPA")
    (.seq (.star isSpaceCh)
      (.seq (.cls (fun c => c == ':' || c == '.' || c == '-'))
        (.seq (.star isSpaceCh) (plusCls isCodeCh))))))

/-- Marker `DENOMINACIÓN\s*[:.\-]` (line 377). -/
def pdf_marker_3 : RE :=
  .seq (litS "DENOMINACIÓN") (.seq (.star isSpaceCh)
    (.cls (fun c => c == ':' || c == '.' || c == '-')))

/-- Marker `^\d+\.\s+[A-Z]` (line 378); `^` anchors it to the start of the
line being tested, and IGNORECASE makes `[A-Z]` any ASCII letter. -/
def pdf_marker_4 : RE :=
  .seq (plusCls isDigitCh) (.seq (litS ".")
    (.seq (plusCls isSpaceCh) (.cls (fun c => c.isAlpha))))

/-- The `is_new_procedure` test of `_extract_procedures_from_text`
(line 391). -/
def is_new_procedure (line : List Char) : Bool :=
  reTest pdf_marker_1 line || reTest pdf_marker_2 line ||
  reTest pdf_marker_3 line || (matchAt pdf_marker_4 line).isSome

/-- The section-building loop of `_extract_procedures_from_text`
(lines 381–400): stripped nonempty lines are accumulated, a marker line
flushes the current section (note the leading space a continuation line
acquires, exactly as `current_section += " " + line` produces). -/
def segment_text (text : String) : List String :=
  let fin := (text.data.splitOn '\n').foldl
    (fun (st : List (List Char) × List Char) line0 =>
      let line := stripL line0
      if line.isEmpty then st
      else if is_new_procedure line && !st.2.isEmpty then (st.2 :: st.1, line)
      else (st.1, st.2 ++ ' ' :: line))
    ([], [])
  let secs := if fin.2.isEmpty then fin.1.reverse else (fin.2 :: fin.1).reverse
  secs.map String.mk

def name_prefixes : List String :=
  ["PROCEDIMIENTO", "CÓDIGO", "DENOMINACIÓN", "NOMBRE"]

def upperA (s : List Char) : List Char := s.map Char.toUpper

/-- The anchored `re.sub(f'^<prefix>\s*[:.\-]?\s*', '', line)` tail: spaces,
one optional separator, spaces. -/
def stripSepAfter (s : List Char) : List Char :=
  let s1 := s.dropWhile isSpaceCh
  let s2 :=
    match s1 with
    | c :: rest => if c == ':' || c == '.' || c == '-' then rest else s1
    | [] => s1
  s2.dropWhile isSpaceCh

/-- Loop body of `_extract_procedure_name` (lines 474–490). -/
def pdfNameFromLines : List (List Char) → String
  | [] => ""
  | line :: rest =>
      if 10 < line.length && line.length < 200 then
        let stripped :=
          match name_prefixes.find? (fun p => startsWithL p.data (upperA line)) with
          | some p => stripSepAfter (line.drop p.length)
          | none => line
        if stripped.length > 5 then String.mk (stripL stripped)
        else pdfNameFromLines rest
      else pdfNameFromLines rest

/-- `_extract_procedure_name` (lines 474–490). -/
def extract_procedure_name (sec : String) : String :=
  pdfNameFromLines (((sec.data.splitOn '\n').map stripL).take 3)

/-- `_extract_with_pattern` (lines 492–495). -/
def extract_with_pattern (text : List Char) (r : RE) : String :=
  match reFindCap r text with
  | some g => String.mk g
  | none => ""

/-- The line scan of `_extract_requirements_from_section` (lines 505–517):
keyword lines restart the requirement blob, following non-numbered lines
are appended, a numbered dotted line stops the scan. -/
def reqSectionScan : Bool → List Char → List (List Char) → List Char
  | _, acc, [] => acc
  | inReq, acc, line :: rest =>
      if ["requisito", "documento", "presenta"].any
          (fun w => containsL (lowStr line) w.data) then
        reqSectionScan true line rest
      else if inReq then
        if line.length > 5 && !((line.head?.map Char.isDigit).getD false) then
          reqSectionScan true (acc ++ ' ' :: line) rest
        else if !line.isEmpty && ((line.head?.map Char.isDigit).getD false)
            && containsL line ".".data then
          acc
        else reqSectionScan inReq acc rest
      else reqSectionScan inReq acc rest

/-- `_extract_requirements_from_section` (lines 497–525). -/
def extract_requirements_from_section (sec : String) : List String :=
  let req_section :=
    reqSectionScan false [] ((sec.data.splitOn '\n').map stripL)
  if req_section.isEmpty then []
  else
    (((reFindAll pdf_req_item_pat req_section).filterMap (fun mc => mc.2)).map
      (fun g => stripS (String.mk g))).take 6

/-- `^\d+\.` tested by `re.search` (anchored at the string start). -/
def startsNumDot (s : List Char) : Bool :=
  let ds := s.takeWhile Char.isDigit
  !ds.isEmpty && (s.drop ds.length).head? == some '.'

/-- Scan for `\bS/\.`, `\bUIT\b` or `CÓDIGO` (case-insensitively) tracking
the previous character for the word boundaries. -/
def descBlockScan : Option Char → List Char → Bool
  | _, [] => false
  | prev, c :: cs =>
      let bound := (prev.map (fun p => !isWordCh p)).getD true
      let s := c :: cs
      (bound && startsWithCI "S/.".data s) ||
      (bound && startsWithCI "UIT".data s &&
        (((s.drop 3).head?.map (fun x => !isWordCh x)).getD true)) ||
      startsWithCI "CÓDIGO".data s ||
      descBlockScan (some c) cs

/-- `re.search(r'^\d+\.|\bS/\.|\bUIT\b|CÓDIGO', line, re.IGNORECASE)`
(line 536) as a boolean test. -/
def descBlockTest (line : List Char) : Bool :=
  startsNumDot line || descBlockScan none line

/-- `_extract_description_from_section` (lines 527–539). -/
def extract_description_from_section (sec : String) : String :=
  match ((((sec.data.splitOn '\n').map stripL).drop 1).take 4).find?
      (fun l => 20 < l.length && l.length < 300 && !descBlockTest l) with
  | some l => String.mk l
  | none => "Procedimiento gubernamental"

/-- `_infer_entity_from_section` (lines 541–552). -/
def infer_entity_from_section (sec : String) : String × String :=
  let t := lowStr sec.data
  let has := fun (w : String) => containsL t w.data
  if has "reniec" || has "dni" || has "identificación" then ("RENIEC", "RENIEC")
  else if has "sunat" || has "tributar" || has "ruc" || has "aduana" then
    ("SUNAT", "SUNAT")
  else if has "sunarp" || has "registro" || has "propiedad" then
    ("SUNARP", "SUNARP")
  else ("Gobierno del Perú", "GOB")

/-- Category table of `_categorize_from_content` (lines 558–564). -/
def pdf_categories : List (String × List String) :=
  [("identidad", ["dni", "identificación", "pasaporte"]),
   ("tributario", ["tributo", "impuesto", "ruc", "declaración"]),
   ("empresarial", ["empresa", "sociedad", "constitución"]),
   ("aduanero", ["aduana", "importación", "exportación"]),
   ("registro", ["registro", "inscripción", "certificado"])]

/-- `_categorize_from_content` (lines 554–570). -/
def categorize_from_content (sec : String) : String :=
  let t := lowStr sec.data
  match pdf_categories.find? (fun ck => ck.2.any (fun kw => containsL t kw.data)) with
  | some ck => ck.1
  | none => "general"

/-- `_assess_difficulty_from_section` (lines 572–583). -/
def assess_difficulty_from_section (sec : String) : String :=
  let t := lowStr sec.data
  if ["notarizada", "apostillada", "legalizada", "certificada",
      "autenticada"].any (fun w => containsL t w.data) then "hard"
  else if sec.length > 1000 then "medium"
  else "easy"

def pdf_keyword_words : List String :=
  ["dni", "ruc", "registro", "certificado", "declaración", "licencia",
   "permiso", "autorización"]

/-- `_extract_keywords_from_section` (lines 585–592): the `\b…\b`
alternation matches exactly the maximal word runs equal to one of the
keywords; `set`-deduplicated (first-occurrence order here), first 5. -/
def extract_keywords_from_section (sec : String) : List String :=
  let t := lowStr sec.data
  ((((wordRuns t).map String.mk).filter
    (fun w => pdf_keyword_words.any (fun k => k == w))).dedup).take 5

/-- The soles half of the cost block of `_parse_procedure_section`
(lines 423–427): explicit currency amount, thousands separators removed,
0 when absent. -/
def pdf_soles_cost (text : List Char) : Rat :=
  match reFindCap pdf_cost_soles_pat text with
  | some g => parseDecQ (pyReplace g ",".data [])
  | none => 0

/-- The full cost block of `_parse_procedure_section` (lines 422–433): the
soles amount is read first; a UIT match applies only when that amount is 0,
with the same below-1-percentage conversion as the SUNAT extractor. -/
def pdf_section_cost (text : List Char) : Rat :=
  let cost0 := pdf_soles_cost text
  match reFindCap pdf_cost_uit_pat text with
  | some g =>
      if cost0 == 0 then
        let v := parseDecQ g
        if v < 1 then v * 5150 / 100 else v * 5150
      else cost0
  | none => cost0

/-- `_parse_procedure_section` (lines 410–472). -/
def parse_procedure_section (sec source_name : String) (index : Nat) :
    Option ProcedureData :=
  let name := extract_procedure_name sec
  if name = "" then none
  else
    let text := sec.data
    let tupa0 := extract_with_pattern text pdf_tupa_code_pat
    let tupa_code := if tupa0 = "" then "PDF-" ++ natPad 3 index else tupa0
    let cost : Rat := pdf_section_cost text
    let ptime0 := extract_with_pattern text pdf_processing_time_pat
    let entity := infer_entity_from_section sec
    some
      { name := name
        description := extract_description_from_section sec
        entity_name := entity.1, entity_code := entity.2
        tupa_code := tupa_code
        requirements := extract_requirements_from_section sec
        cost := cost, currency := "PEN"
        processing_time := if ptime0 = "" then "No especificado" else ptime0
        legal_basis := (reFindAll pdf_legal_ref_pat text).map (fun mc => String.mk mc.1)
        channels := ["Presencial"]
        category := categorize_from_content sec
        subcategory := ""
        is_free := cost == 0
        is_online := false
        difficulty_level := assess_difficulty_from_section sec
        source_url := "pdf://" ++ source_name
        keywords := extract_keywords_from_section sec }

/-- `_extract_procedures_from_text` (lines 368–408): segment, parse the
first 20 sections with 1-based indices, keep the successes. -/
def extract_procedures_from_text (text source_name : String) : List ProcedureData :=
  (((segment_text text).take 20).enum).filterMap
    (fun p => parse_procedure_section p.2 source_name (p.1 + 1))

/-- Page-text concatenation used by the PDF paths: the first `n` pages'
texts (absent for pages that fail extraction), each followed by a newline. -/
def page_text_concat (pages : List (Option String)) (n : Nat) : String :=
  ((pages.take n).filterMap id).foldl (fun acc t => acc ++ t ++ "\n") ""

/-- `_process_tupa_pdf` (lines 143–164): first 50 pages. -/
def process_tupa_pdf (pages : List (Option String)) : List ProcedureData :=
  extract_procedures_from_text (page_text_concat pages 50) "TUPA Integral"

/-- `_process_generic_pdf` (lines 309–329): first 10 pages, no work on an
empty text. -/
def process_generic_pdf (pages : List (Option String)) : List ProcedureData :=
  let t := page_text_concat pages 10
  if t = "" then [] else extract_procedures_from_text t "Documento PDF"

/-- `_parse_tasa_row` (lines 594–635).  Table cells are inputs (`none`
models a null cell).  A cost string passing the digit guard but still
rejected by `float` raises in the source; the handler returns no record. -/
def parse_tasa_row (pyHash : String → Nat) (row : List (Option String)) :
    Option ProcedureData :=
  if row.length < 2 then none
  else
    let name :=
      match row.get? 0 with
      | some (some s) => if s = "" then "" else stripS s
      | _ => ""
    let cost_str :=
      match row.get? 1 with
      | some (some s) => if s = "" then "0" else stripS s
      | _ => "0"
    if name = "" || name.length < 5 then none
    else
      let digitsOnly := cost_str.data.filter (fun c => c != '.' && c != ',')
      let isdigitGuard := !digitsOnly.isEmpty && digitsOnly.all Char.isDigit
      let cost? : Option Rat :=
        if cost_str != "" && isdigitGuard then
          pyFloatDec? (pyReplace cost_str.data ",".data [])
        else some 0
      match cost? with
      | none => none
      | some cost =>
          some
            { name := name
              description := "Procedimiento con tasa establecida"
              entity_name := "Gobierno del Perú", entity_code := "GOB"
              tupa_code := "TASA-" ++ natPad 3 (pyHash name % 1000)
              requirements := ["Según procedimiento específico"]
              cost := cost, currency := "PEN"
              processing_time := "Según normativa"
              legal_basis := []
              channels := ["Presencial"]
              category := "tasa", subcategory := ""
              is_free := cost == 0
              is_online := false
              difficulty_level := "medium"
              source_url := "pdf://tasas"
              keywords := ["tasa", "procedimiento", "costo"] }

/-- `_process_tasas_pdf` (lines 166–191): header row skipped, rows of at
least 3 cells parsed. -/
def process_tasas_pdf (pyHash : String → Nat)
    (tables : List (List (List (Option String)))) : List ProcedureData :=
  (tables.filter (fun tb => !tb.isEmpty && tb.length > 1)).map
    (fun tb => (tb.drop 1).filterMap
      (fun row => if row.length ≥ 3 then parse_tasa_row pyHash row else none))
  |>.flatten

/-- `(?:PASO|PROCEDIMIENTO|CÓMO)\s+\d+` (line 642). -/
def manual_split_pat : RE :=
  .seq (.alt (litS "PASO") (.alt (litS "PROCEDIMIENTO") (litS "CÓMO")))
    (.seq (plusCls isSpaceCh) (plusCls isDigitCh))

/-- One record of `_extract_manual_procedures` (lines 646–665). -/
def mkManualProcedure (i : Nat) (sec : String) : ProcedureData :=
  { name := "Procedimiento Manual Paso " ++ toString (i + 1)
    description := stripS (String.mk (sec.data.take 200))
    entity_name := "RENIEC", entity_code := "RENIEC"
    tupa_code := "MANUAL-" ++ natPad 2 (i + 1)
    requirements := ["Seguir instrucciones del manual"]
    cost := 0, currency := "PEN"
    processing_time := "Según manual"
    legal_basis := []
    channels := ["Virtual", "Presencial"]
    category := "consulta", subcategory := "manual"
    is_free := true, is_online := true
    difficulty_level := "easy"
    source_url := "pdf://manual"
    keywords := ["manual", "procedimiento", "guia"] }

/-- `_extract_manual_procedures` (lines 637–668). -/
def extract_manual_procedures (text : String) : List ProcedureData :=
  let sections := (reSplit manual_split_pat text.data).map String.mk
  (((sections.drop 1).take 5).enum.filter (fun p => p.2.length > 100)).map
    (fun p => mkManualProcedure p.1 p.2)

/-- `_process_manual_pdf` (lines 193–212): first 30 pages. -/
def process_manual_pdf (pages : List (Option String)) : List ProcedureData :=
  extract_manual_procedures (page_text_concat pages 30)

/-- `_get_default_reniec_requirements` (lines 670–677). -/
def get_default_reniec_requirements : List String :=
  ["Documento de identidad vigente", "Formulario de solicitud",
   "Comprobante de pago", "Presencia personal del solicitante"]

/-- One curated record of `_process_registro_pdf` (lines 214–270);
`is_free` is computed as `cost == 0`. -/
def mkRegistroRecord (name description : String) (cost : Rat)
    (ptime tupa_code filepath : String) : ProcedureData :=
  { name := name, description := description
    entity_name := "RENIEC", entity_code := "RENIEC"
    tupa_code := tupa_code
    requirements := get_default_reniec_requirements
    cost := cost, currency := "PEN"
    processing_time := ptime
    legal_basis := ["Ley Nº 26497 - Ley Orgánica del RENIEC"]
    channels := ["Presencial"]
    category := "identidad", subcategory := "registro"
    is_free := cost == 0
    is_online := false
    difficulty_level := "medium"
    source_url := "file://" ++ filepath
    keywords := ["reniec", "registro", "identificacion", "civil"] }

def process_registro_pdf (filepath : String) : List ProcedureData :=
  [mkRegistroRecord "Inscripción de Nacimiento"
      "Registro de nacimiento en el Registro Nacional de Identificación"
      0 "30 días" "RENIEC-INSC-001" filepath,
   mkRegistroRecord "Rectificación de Datos en Registro"
      "Corrección de datos erróneos en registros de identificación"
      50 "60 días" "RENIEC-RECT-001" filepath,
   mkRegistroRecord "Certificado de Nacimiento"
      "Emisión de certificado de nacimiento del Registro Civil"
      15 "1 día" "RENIEC-CERT-001" filepath]

/-- `_process_centros_xlsx` (lines 272–307): one fixed record when the
data frame is nonempty (`dfRows` is its row count). -/
def process_centros_xlsx (filepath : String) (dfRows : Nat) : List ProcedureData :=
  if dfRows == 0 then []
  else
    [{ name := "Consulta de Centros de Atención RENIEC"
       description := "Consulta de ubicaciones y horarios de " ++ toString dfRows ++
         " centros de atención RENIEC"
       entity_name := "RENIEC", entity_code := "RENIEC"
       tupa_code := "RENIEC-CENTROS-001"
       requirements := ["Consulta libre", "Sin requisitos específicos"]
       cost := 0, currency := "PEN"
       processing_time := "Inmediato"
       legal_basis := ["Ley Nº 26497 - Ley Orgánica del RENIEC"]
       channels := ["Virtual", "Presencial"]
       category := "identidad", subcategory := "consulta"
       is_free := true, is_online := true
       difficulty_level := "easy"
       source_url := "file://" ++ filepath
       keywords := ["reniec", "centros", "atencion", "ubicaciones"] }]

/-- `_process_generic_xlsx` (lines 331–366).  The synthetic code embeds
`hash(filepath) % 1000` — CPython's per-process salted string hash, the run
parameter `pyHash`. -/
def process_generic_xlsx (pyHash : String → Nat) (filepath : String) :
    List ProcedureData :=
  let filename := baseName filepath
  [{ name := "Consulta de Datos - " ++ filename
     description := "Consulta de información estructurada desde archivo " ++ filename
     entity_name := "Gobierno del Perú", entity_code := "GOB"
     tupa_code := "GOB-EXCEL-" ++ natPad 3 (pyHash filepath % 1000)
     requirements := ["Consulta de archivo oficial"]
     cost := 0, currency := "PEN"
     processing_time := "Inmediato"
     legal_basis := []
     channels := ["Virtual"]
     category := "consulta", subcategory := "datos"
     is_free := true, is_online := true
     difficulty_level := "easy"
     source_url := "file://" ++ filepath
     keywords := ["consulta", "datos", "excel", "oficial"] }]

end PDFProcessor

/-! ## `DatabaseIntegration` (database_integration.py)

The relational store is modelled as explicit state: an entity table keyed by
`code` and a procedure table carrying the `(tupa_code, entity_id)` natural
keys (the only columns the save logic reads).  Per-record exceptions are
driven by an explicit event oracle mirroring the two `try/except` layers of
the source: an exception escaping `create_or_get_entity` reaches the loop's
handler, while an exception inside `save_procedure` is caught there and
surfaces as a `None` return. -/

namespace DatabaseIntegration

structure EntityRow where
  id : Nat
  name : String
  code : String
deriving Repr, DecidableEq

structure ProcRow where
  tupa_code : String
  entity_id : Nat
deriving Repr, DecidableEq

structure DBState where
  entities : List EntityRow
  procs : List ProcRow
  nextId : Nat
deriving Repr, DecidableEq

def emptyDB : DBState := { entities := [], procs := [], nextId := 0 }

/-- `create_or_get_entity` (lines 56–87): look up by `code`; create and
flush when absent. -/
def create_or_get_entity (st : DBState) (entity_name entity_code : String) :
    EntityRow × DBState :=
  match st.entities.find? (fun e => e.code == entity_code) with
  | some e => (e, st)
  | none =>
      let e : EntityRow := { id := st.nextId, name := entity_name, code := entity_code }
      (e, { st with entities := st.entities ++ [e], nextId := st.nextId + 1 })

/-- `save_procedure` (lines 102–150): when a row with the same
`(tupa_code, entity_id)` already exists it is returned unchanged — a truthy
value — otherwise a new row is inserted and returned.  The `Bool` is
whether a row object (existing or new) was returned; the source returns
`None` only from its exception handler, which the batch loop's event oracle
models. -/
def save_procedure (st : DBState) (p : ProcedureData) (e : EntityRow) :
    Bool × DBState :=
  match st.procs.find? (fun r => r.tupa_code == p.tupa_code && r.entity_id == e.id) with
  | some _ => (true, st)
  | none =>
      (true, { st with procs := st.procs ++ [{ tupa_code := p.tupa_code, entity_id := e.id }] })

/-- Exception oracle for one record of the batch loop. -/
inductive RecEvent where
  | ok
  | saveFail
  | entityFail
deriving Repr, DecidableEq

structure BatchStats where
  total : Nat
  saved : Nat
  skipped : Nat
  errors : Nat
deriving Repr, DecidableEq

/-- One iteration of the loop in `save_procedures_batch` (lines 163–186):
`entityFail` is an exception reaching the loop handler (`errors += 1`),
`saveFail` makes `save_procedure` return `None` (`skipped += 1`), otherwise
the returned row — existing or new — is counted in `saved`.  The increments
are returned as `(saved, skipped, errors)`. -/
def process_record (st : DBState) (p : ProcedureData) (ev : RecEvent) :
    (Nat × Nat × Nat) × DBState :=
  match ev with
  | .entityFail => ((0, 0, 1), st)
  | .saveFail =>
      let r := create_or_get_entity st p.entity_name p.entity_code
      ((0, 1, 0), r.2)
  | .ok =>
      let r := create_or_get_entity st p.entity_name p.entity_code
      let s := save_procedure r.2 p r.1
      if s.1 then ((1, 0, 0), s.2) else ((0, 1, 0), s.2)

/-- One fold step of the batch loop: add the record's counter increments. -/
def batch_step (acc : BatchStats × DBState) (pr : ProcedureData × RecEvent) :
    BatchStats × DBState :=
  let r := process_record acc.2 pr.1 pr.2
  ({ acc.1 with
      saved := acc.1.saved + r.1.1
      skipped := acc.1.skipped + r.1.2.1
      errors := acc.1.errors + r.1.2.2 }, r.2)

/-- `save_procedures_batch` (lines 152–197): `total` is the input length;
the loop increments exactly one counter per record and the transaction
commits at the end. -/
def save_procedures_batch (records : List (ProcedureData × RecEvent))
    (st : DBState) : BatchStats × DBState :=
  records.foldl batch_step
    ({ total := records.length, saved := 0, skipped := 0, errors := 0 }, st)

end DatabaseIntegration

/-! ## Specification-side definitions

Written from the spec's wording, to be compared with the embedded source
functions (refinement-style claims C4, C5, C7). -/

/-- Spec §4.4: `amount = uit_value * INDEX_VALUE` when `uit_value >= 1`,
else `amount = uit_value * INDEX_VALUE / 100`, with `INDEX_VALUE = 5150`. -/
def uit_conversion_spec (v : Rat) : Rat :=
  if 1 ≤ v then v * 5150 else v * 5150 / 100

/-- Spec §4.4 difficulty point score: +1 per exceeded threshold, +1 when a
complexity keyword occurs in the (joined, lowered) requirements. -/
def difficulty_score_spec (reqThreshold : Nat) (costThreshold : Rat)
    (kws : List String) (reqs : List String) (cost : Rat) : Nat :=
  (if reqs.length > reqThreshold then 1 else 0) +
  (if cost > costThreshold then 1 else 0) +
  (if kws.any (fun w => containsL (lowStr (joinSpace reqs).data) w.data)
    then 1 else 0)

/-- Spec §4.4 difficulty mapping: score 0–1 → easy, 2 → medium, ≥3 → hard. -/
def difficulty_level_spec (score : Nat) : String :=
  if score = 0 ∨ score = 1 then "easy"
  else if score = 2 then "medium" else "hard"

/-! ## Invariant predicates and concrete inputs for the claims -/

/-- C6's invariant, decidably: `cost >= 0` and `is_free == (cost == 0)`. -/
def costInvB (r : ProcedureData) : Bool :=
  decide (0 ≤ r.cost) && (r.is_free == (r.cost == 0))

/-- C8's first clause, decidably: a non-empty category. -/
def catNonEmptyB (r : ProcedureData) : Bool :=
  r.category != ""

/-- A fixed stand-in for one run's salted `hash`. -/
def hashZero : String → Nat := fun _ => 0

/-- C3's end-to-end scenario: a SUNAT page whose text contains
`"Código TUPA: SUNAT-001"` and `"Tasa: S/. 50.00"` and whose requirement
list holds 3 items. -/
def c3_page : SpecializedScraper.SunatPage :=
  { titleHits := ["Inscripción en el registro de entidades"]
    descHits := ["Trámite presencial ante la administración"]
    text := "Código TUPA: SUNAT-001 Tasa: S/. 50.00 Requisitos del caso"
    reqItems := ["Copia simple del DNI vigente", "Formulario 2119 firmado",
                 "Recibo de pago del banco"]
    url := "https://www.sunat.gob.pe/legislacion/procedim/despacho/" }

/-- C5's counterexample text: both an explicit tasa amount and a UIT
multiple occur. -/
def c5_both_text : String := "Tasa: S/. 150.00 y 0.50 UIT adicional"

/-- C8's counterexample: a SUNAT page none of whose classification texts
contains any keyword of `_categorize_sunat_procedure`. -/
def c8_page : SpecializedScraper.SunatPage :=
  { titleHits := ["Gestión de maquinaria pesada"]
    descHits := ["Solicitud de copias del legajo"]
    text := "pagina sin datos utiles"
    reqItems := []
    url := "https://www.sunat.gob.pe/xyz" }

/-- The keyword buckets of `_categorize_sunat_procedure`, flattened. -/
def sunat_category_keywords : List String :=
  ["importac", "export", "aduaner", "ruc", "tributar", "impuest",
   "deposit", "almacen", "transit", "transport"]

/-- C9's witness page: an explicit currency amount and a free word both
occur in the text. -/
def c9_page : TupaScraper.BasicPage :=
  { status := 200
    nameHits := ["Trámite de ejemplo con costo"]
    descHits := []
    paragraphs := []
    entityHits := []
    reqItems := []
    text := "El costo es S/. 150.00 pero hoy es gratuito"
    url := "https://www.gob.pe/x" }

/-- C7's example requirement list: 8 items, none containing a complexity
keyword. -/
def eight_reqs : List String :=
  ["Requisito uno", "Requisito dos", "Requisito tres", "Requisito cuatro",
   "Requisito cinco", "Requisito seis", "Requisito siete", "Requisito ocho"]

/-- C1's sample record (one of the curated SUNAT records). -/
def c1_record : ProcedureData :=
  TupaScraper.mkSunatCurated "Inscripción al RUC - Persona Natural"
    "Registro Único del Contribuyente para personas naturales"
    "SUNAT-001" ["DNI del solicitante vigente"] 0 "Inmediato"

/-- C6's witness section for the PDF section parser. -/
def c6_section : String :=
  "PROCEDIMIENTO N° 12 Registro de firmas ante la entidad S/. 35.00"

/-- C6's witness page for the basic web extractor. -/
def c6_page : TupaScraper.BasicPage :=
  { status := 200
    nameHits := ["Procedimiento de prueba basica"]
    descHits := []
    paragraphs := []
    entityHits := []
    reqItems := []
    text := "Costo del servicio S/. 12.00 en oficina"
    url := "https://www.gob.pe/y" }

/-! ## Helper lemmas -/

theorem parseDecQ_nonneg (cs : List Char) : 0 ≤ parseDecQ cs := by
  unfold parseDecQ
  split
  · positivity
  · positivity
  · norm_num

theorem sunat_cost_nonneg (t : List Char) : 0 ≤ SpecializedScraper.sunat_cost t := by
  unfold SpecializedScraper.sunat_cost
  split
  · rename_i g _
    have h := parseDecQ_nonneg g
    dsimp only
    split
    · positivity
    · positivity
  · split
    · exact parseDecQ_nonneg _
    · norm_num

theorem pdf_soles_cost_nonneg (t : List Char) : 0 ≤ PDFProcessor.pdf_soles_cost t := by
  unfold PDFProcessor.pdf_soles_cost
  split
  · exact parseDecQ_nonneg _
  · norm_num

theorem pdf_section_cost_nonneg (t : List Char) :
    0 ≤ PDFProcessor.pdf_section_cost t := by
  unfold PDFProcessor.pdf_section_cost
  split
  · rename_i g _
    dsimp only
    split
    · have h := parseDecQ_nonneg g
      split
      · positivity
      · positivity
    · exact pdf_soles_cost_nonneg t
  · exact pdf_soles_cost_nonneg t

theorem extract_cost_info_nonneg (t : List Char) :
    0 ≤ (TupaScraper.extract_cost_info t).1 := by
  unfold TupaScraper.extract_cost_info
  dsimp only
  split
  · norm_num
  · split
    · exact parseDecQ_nonneg _
    · norm_num

theorem pyFloatDec?_nonneg (cs : List Char) (q : Rat)
    (h : pyFloatDec? cs = some q) : 0 ≤ q := by
  unfold pyFloatDec? at h
  split at h
  · cases h
    exact parseDecQ_nonneg cs
  · cases h

theorem gobScan_cost_nonneg (secs : List (String × List String)) :
    0 ≤ (SpecializedScraper.gobScanSections secs).1 := by
  unfold SpecializedScraper.gobScanSections
  suffices h : ∀ acc : Rat × String × List String, 0 ≤ acc.1 →
      0 ≤ (secs.foldl
        (fun (acc : Rat × String × List String) sec =>
          let t := lowStr sec.1.data
          let cost :=
            if containsL t "costo".data || containsL t "precio".data then
              match reFindCap gob_cost_pat t with
              | some g => parseDecQ g
              | none => acc.1
            else acc.1
          let ptime :=
            if containsL t "tiempo".data || containsL t "plazo".data then
              match reFindMatch gob_time_pat t with
              | some m => String.mk m
              | none => acc.2.1
            else acc.2.1
          let reqs :=
            if containsL t "requisito".data then
              if sec.2.isEmpty then acc.2.2 else acc.2.2 ++ sec.2.map stripS
            else acc.2.2
          (cost, ptime, reqs)) acc).1 by
    exact h (0, "No especificado", []) (by norm_num)
  induction secs with
  | nil => intro acc hacc; exact hacc
  | cons s rest ih =>
      intro acc hacc
      refine ih _ ?_
      dsimp only
      split
      · split
        · exact parseDecQ_nonneg _
        · exact hacc
      · exact hacc

/-- Each loop iteration increments exactly one of the three counters. -/
theorem process_record_increments_one (st : DatabaseIntegration.DBState)
    (p : ProcedureData) (ev : DatabaseIntegration.RecEvent) :
    (DatabaseIntegration.process_record st p ev).1.1 +
    (DatabaseIntegration.process_record st p ev).1.2.1 +
    (DatabaseIntegration.process_record st p ev).1.2.2 = 1 := by
  cases ev <;> dsimp [DatabaseIntegration.process_record] <;> (try split) <;> rfl

theorem batch_fold_aux (records : List (ProcedureData × DatabaseIntegration.RecEvent)) :
    ∀ acc : DatabaseIntegration.BatchStats × DatabaseIntegration.DBState,
      (records.foldl DatabaseIntegration.batch_step acc).1.total = acc.1.total ∧
      (records.foldl DatabaseIntegration.batch_step acc).1.saved +
        (records.foldl DatabaseIntegration.batch_step acc).1.skipped +
        (records.foldl DatabaseIntegration.batch_step acc).1.errors =
        acc.1.saved + acc.1.skipped + acc.1.errors + records.length := by
  induction records with
  | nil => intro acc; exact ⟨rfl, by simp⟩
  | cons pr rest ih =>
      intro acc
      have h1 := process_record_increments_one acc.2 pr.1 pr.2
      have h2 := ih (DatabaseIntegration.batch_step acc pr)
      refine ⟨h2.1, ?_⟩
      rw [List.foldl_cons] at *
      rw [h2.2]
      dsimp [DatabaseIntegration.batch_step]
      omega

/-! ## Claim theorems -/

/-- C10: whenever `save_procedures_batch` returns, `total` equals the length
of the input list and `saved + skipped + errors == total` — every input
record increments exactly one of the three counters, whichever of the two
exception paths (loop handler, `save_procedure`'s internal handler) it
takes. -/
theorem batch_save_counters_partition
    (records : List (ProcedureData × DatabaseIntegration.RecEvent))
    (st : DatabaseIntegration.DBState) :
    (DatabaseIntegration.save_procedures_batch records st).1.total = records.length ∧
    (DatabaseIntegration.save_procedures_batch records st).1.saved +
      (DatabaseIntegration.save_procedures_batch records st).1.skipped +
      (DatabaseIntegration.save_procedures_batch records st).1.errors =
      (DatabaseIntegration.save_procedures_batch records st).1.total := by
  have h := batch_fold_aux records
    ({ total := records.length, saved := 0, skipped := 0, errors := 0 }, st)
  unfold DatabaseIntegration.save_procedures_batch
  refine ⟨h.1, ?_⟩
  rw [h.1, h.2]
  simp

/-- C1 (evaluation at the failing input): saving the same record in two
successive batch runs.  The first run reports `saved = 1`; the second run —
the natural key now already persisted — again reports `saved = 1` and
`skipped = 0`, because `save_procedure` returns the existing row (truthy)
on a duplicate and the loop counts any returned row in `saved`.  No
duplicate row is inserted (`procs.length` stays 1), but the `skipped`
counter never sees the conflict, contradicting the documented
skip-accounting and the second-run `saved == 0` idempotence property. -/
theorem duplicate_record_counted_in_saved :
    (DatabaseIntegration.save_procedures_batch [(c1_record, .ok)]
        DatabaseIntegration.emptyDB).1.saved = 1 ∧
    (DatabaseIntegration.save_procedures_batch [(c1_record, .ok)]
        (DatabaseIntegration.save_procedures_batch [(c1_record, .ok)]
          DatabaseIntegration.emptyDB).2).1.saved = 1 ∧
    (DatabaseIntegration.save_procedures_batch [(c1_record, .ok)]
        (DatabaseIntegration.save_procedures_batch [(c1_record, .ok)]
          DatabaseIntegration.emptyDB).2).1.skipped = 0 ∧
    (DatabaseIntegration.save_procedures_batch [(c1_record, .ok)]
        (DatabaseIntegration.save_procedures_batch [(c1_record, .ok)]
          DatabaseIntegration.emptyDB).2).1.errors = 0 ∧
    (DatabaseIntegration.save_procedures_batch [(c1_record, .ok)]
        (DatabaseIntegration.save_procedures_batch [(c1_record, .ok)]
          DatabaseIntegration.emptyDB).2).2.procs.length = 1 := by
  refine ⟨rfl, rfl, rfl, rfl, rfl⟩

/-- C2 (evaluation at the failing input): the synthetic `tupa_code` formats
CPython's per-process salted string hash (`hash(url) % 10000`,
`hash(filepath) % 1000`).  Two runs whose hash functions differ — as two
CPython processes with different `PYTHONHASHSEED` do — produce different
synthetic codes for the same input, for the URL fallback branch and for the
generic-Excel path. -/
theorem synthetic_code_varies_with_hash_seed :
    SpecializedScraper.generate_code_from_url (fun _ => 0)
      "https://example.com" = "PROC-0000" ∧
    SpecializedScraper.generate_code_from_url (fun _ => 1)
      "https://example.com" = "PROC-0001" ∧
    ((PDFProcessor.process_generic_xlsx (fun _ => 17) "docs/datos.xlsx").map
      (fun r => r.tupa_code)) = ["GOB-EXCEL-017"] ∧
    ((PDFProcessor.process_generic_xlsx (fun _ => 18) "docs/datos.xlsx").map
      (fun r => r.tupa_code)) = ["GOB-EXCEL-018"] ∧
    ("PROC-0000" : String) ≠ "PROC-0001" ∧
    ("GOB-EXCEL-017" : String) ≠ "GOB-EXCEL-018" := by
  refine ⟨rfl, rfl, rfl, rfl, by decide, by decide⟩

/-- A UIT match makes the SUNAT cost the spec's conversion of the captured
value. -/
theorem sunat_cost_of_uit_match (t g : List Char)
    (h : reFindCap uit_pattern t = some g) :
    SpecializedScraper.sunat_cost t = uit_conversion_spec (parseDecQ g) := by
  unfold SpecializedScraper.sunat_cost
  rw [h]
  dsimp only
  unfold uit_conversion_spec
  by_cases hv : parseDecQ g < 1
  · rw [if_pos hv, if_neg (not_le.mpr hv)]
  · rw [if_neg hv, if_pos (le_of_not_lt hv)]

/-- A UIT match with a zero explicit amount makes the PDF section cost the
spec's conversion of the captured value. -/
theorem pdf_cost_of_uit_match (t g : List Char)
    (h : reFindCap pdf_cost_uit_pat t = some g)
    (h0 : PDFProcessor.pdf_soles_cost t = 0) :
    PDFProcessor.pdf_section_cost t = uit_conversion_spec (parseDecQ g) := by
  unfold PDFProcessor.pdf_section_cost
  rw [h, h0]
  dsimp only
  rw [if_pos (by simp)]
  unfold uit_conversion_spec
  by_cases hv : parseDecQ g < 1
  · rw [if_pos hv, if_neg (not_le.mpr hv)]
  · rw [if_neg hv, if_pos (le_of_not_lt hv)]

/-- C4 counterexample: on the input text `"0.5 UIT"` the UIT pattern —
whose optional decimal part requires exactly two digits — captures `"5"`
(not `"0.5"`), so both UIT-converting extractors compute 5 * 5150 = 25750,
not the claimed 25.75. -/
theorem uit_half_text_cost_not_25_75 :
    (reFindCap uit_pattern "0.5 UIT".data).map String.mk = some "5" ∧
    SpecializedScraper.sunat_cost "0.5 UIT".data = 25750 ∧
    PDFProcessor.pdf_section_cost "0.5 UIT".data = 25750 ∧
    (25750 : Rat) ≠ 103 / 4 := by
  refine ⟨rfl, by with_unfolding_all rfl, by with_unfolding_all rfl, by norm_num⟩

/-- C4 amended: for every UIT capture `g` the converted amount is
`v * 5150` when `v >= 1` and `v * 5150 / 100` when `v < 1` with
`v = float(g)`, in both UIT-converting extractors (in the PDF extractor
under its explicit-amount-is-zero guard); `"0.50 UIT"` — two decimals, as
the pattern demands — yields 25.75 and `"Tasa: S/. 150.00"` yields 150.00
with currency `"PEN"`, while `"0.5 UIT"` captures `5` and yields 25750. -/
theorem uit_conversion_formula :
    (∀ t g, reFindCap uit_pattern t = some g →
      SpecializedScraper.sunat_cost t = uit_conversion_spec (parseDecQ g)) ∧
    (∀ t g, reFindCap pdf_cost_uit_pat t = some g →
      PDFProcessor.pdf_soles_cost t = 0 →
      PDFProcessor.pdf_section_cost t = uit_conversion_spec (parseDecQ g)) ∧
    SpecializedScraper.sunat_cost "0.50 UIT".data = 103 / 4 ∧
    SpecializedScraper.sunat_cost "Tasa: S/. 150.00".data = 150 ∧
    (SpecializedScraper.extract_sunat_procedure hashZero
      { titleHits := [], descHits := [], text := "Tasa: S/. 150.00",
        reqItems := [], url := "" }).currency = "PEN" ∧
    PDFProcessor.pdf_section_cost "Tasa: S/. 150.00".data = 150 ∧
    SpecializedScraper.sunat_cost "0.5 UIT".data = 25750 := by
  exact ⟨sunat_cost_of_uit_match, pdf_cost_of_uit_match,
    by with_unfolding_all rfl, by with_unfolding_all rfl, rfl,
    by with_unfolding_all rfl, by with_unfolding_all rfl⟩

/-- Witness for the amended C4: both universal parts instantiated —
the SUNAT part at `"0.50 UIT"` and the PDF part at `"0.5 UIT"` (where the
soles amount is absent, hence 0). -/
theorem uit_conversion_formula_witness :
    SpecializedScraper.sunat_cost "0.50 UIT".data =
      uit_conversion_spec (parseDecQ "0.50".data) ∧
    PDFProcessor.pdf_section_cost "0.5 UIT".data =
      uit_conversion_spec (parseDecQ "5".data) :=
  ⟨uit_conversion_formula.1 "0.50 UIT".data "0.50".data rfl,
   uit_conversion_formula.2.1 "0.5 UIT".data "5".data rfl rfl⟩

/-- C5 counterexample: on a text containing both an explicit tasa amount
(150.00) and a UIT multiple (0.50), the SUNAT extractor's cost is the UIT
conversion 25.75, not the explicit 150 — while the PDF extractor on the
same text yields 150: the priority is not the explicit amount and is not
the same in every extractor. -/
theorem explicit_amount_not_prioritized_in_sunat :
    (reFindCap tasa_pattern c5_both_text.data).map String.mk = some "150.00" ∧
    (reFindCap uit_pattern c5_both_text.data).map String.mk = some "0.50" ∧
    SpecializedScraper.sunat_cost c5_both_text.data = 103 / 4 ∧
    PDFProcessor.pdf_section_cost c5_both_text.data = 150 ∧
    ((103 : Rat) / 4) ≠ 150 := by
  refine ⟨rfl, rfl, by with_unfolding_all rfl, by with_unfolding_all rfl, by norm_num⟩

/-- C5 amended: in the SUNAT specialized extractor the UIT match takes
priority — the explicit tasa amount is consulted only when no UIT match
exists; in the PDF extractor the explicit soles amount takes priority
unless it parses to 0, in which case a UIT match applies.  The two
extractors therefore disagree on texts containing both (25.75 vs 150 on
the counterexample text). -/
theorem cost_priority_differs_between_extractors :
    (∀ t gu gt, reFindCap uit_pattern t = some gu →
      reFindCap tasa_pattern t = some gt →
      SpecializedScraper.sunat_cost t = uit_conversion_spec (parseDecQ gu)) ∧
    (∀ t gt, reFindCap uit_pattern t = none →
      reFindCap tasa_pattern t = some gt →
      SpecializedScraper.sunat_cost t = parseDecQ gt) ∧
    (∀ t gs, reFindCap pdf_cost_soles_pat t = some gs →
      parseDecQ (pyReplace gs ",".data []) ≠ 0 →
      PDFProcessor.pdf_section_cost t = parseDecQ (pyReplace gs ",".data [])) ∧
    (∀ t gs gu, reFindCap pdf_cost_soles_pat t = some gs →
      parseDecQ (pyReplace gs ",".data []) = 0 →
      reFindCap pdf_cost_uit_pat t = some gu →
      PDFProcessor.pdf_section_cost t = uit_conversion_spec (parseDecQ gu)) ∧
    SpecializedScraper.sunat_cost c5_both_text.data = 103 / 4 ∧
    PDFProcessor.pdf_section_cost c5_both_text.data = 150 := by
  refine ⟨?_, ?_, ?_, ?_, by with_unfolding_all rfl, by with_unfolding_all rfl⟩
  · intro t gu gt hu ht
    exact sunat_cost_of_uit_match t gu hu
  · intro t gt hu ht
    unfold SpecializedScraper.sunat_cost
    rw [hu, ht]
  · intro t gs hs hne
    have h0 : PDFProcessor.pdf_soles_cost t = parseDecQ (pyReplace gs ",".data []) := by
      unfold PDFProcessor.pdf_soles_cost
      rw [hs]
    unfold PDFProcessor.pdf_section_cost
    rw [h0]
    cases hu : reFindCap pdf_cost_uit_pat t with
    | none => rfl
    | some gu =>
        dsimp only
        rw [if_neg (by simpa using hne)]
  · intro t gs gu hs h0v hu
    have h0 : PDFProcessor.pdf_soles_cost t = 0 := by
      unfold PDFProcessor.pdf_soles_cost
      rw [hs]
      exact h0v
    exact pdf_cost_of_uit_match t gu hu h0

/-- Witness for the amended C5: all four universal parts instantiated at
concrete texts. -/
theorem cost_priority_differs_witness :
    SpecializedScraper.sunat_cost c5_both_text.data =
      uit_conversion_spec (parseDecQ "0.50".data) ∧
    SpecializedScraper.sunat_cost "Tasa: S/. 150.00".data =
      parseDecQ "150.00".data ∧
    PDFProcessor.pdf_section_cost c5_both_text.data =
      parseDecQ (pyReplace "150.00".data ",".data []) ∧
    PDFProcessor.pdf_section_cost "S/. 0.00 y 0.50 UIT".data =
      uit_conversion_spec (parseDecQ "0.50".data) :=
  ⟨cost_priority_differs_between_extractors.1 c5_both_text.data
      "0.50".data "150.00".data rfl rfl,
   cost_priority_differs_between_extractors.2.1 "Tasa: S/. 150.00".data
      "150.00".data rfl rfl,
   cost_priority_differs_between_extractors.2.2.1 c5_both_text.data
      "150.00".data rfl (by
        rw [show parseDecQ (pyReplace "150.00".data ",".data []) = 150 from by
          with_unfolding_all rfl]
        norm_num),
   cost_priority_differs_between_extractors.2.2.2.1 "S/. 0.00 y 0.50 UIT".data
      "0.00".data "0.50".data rfl (by with_unfolding_all rfl) rfl⟩

/-- The source's score-to-level mapping equals the spec's
(0–1 → easy, 2 → medium, ≥3 → hard). -/
theorem score_mapping_eq_spec (n : Nat) :
    (if n ≤ 1 then "easy" else if n == 2 then "medium" else "hard") =
      difficulty_level_spec n := by
  unfold difficulty_level_spec
  by_cases h1 : n ≤ 1
  · rw [if_pos h1, if_pos (show n = 0 ∨ n = 1 by omega)]
  · rw [if_neg h1, if_neg (show ¬(n = 0 ∨ n = 1) by omega)]
    by_cases h2 : n = 2
    · rw [if_pos (show (n == 2) = true by simpa using h2), if_pos h2]
    · rw [if_neg (show ¬((n == 2) = true) by simpa using h2), if_neg h2]

/-- C7: both difficulty variants compute the spec's point score — +1 when
the requirement count exceeds the threshold (5 generic, 6 SUNAT), +1 when
the cost exceeds the threshold (100 generic, 1000 SUNAT), +1 when a
complexity keyword occurs in the joined lowered requirements — and map
score 0–1 to easy, 2 to medium, ≥3 to hard; 8 plain requirements with cost
0 give "easy" and with cost 150 give "medium" under the generic
thresholds. -/
theorem difficulty_scoring_matches_spec :
    (∀ reqs cost, TupaScraper.assess_difficulty reqs cost =
      difficulty_level_spec
        (difficulty_score_spec 5 100 TupaScraper.complex_words reqs cost)) ∧
    (∀ reqs cost, SpecializedScraper.assess_difficulty_sunat reqs cost =
      difficulty_level_spec
        (difficulty_score_spec 6 1000
          ["declaracion", "aforo", "valorizacion", "arancel"] reqs cost)) ∧
    TupaScraper.assess_difficulty eight_reqs 0 = "easy" ∧
    TupaScraper.assess_difficulty eight_reqs 150 = "medium" := by
  refine ⟨?_, ?_, by with_unfolding_all rfl, by with_unfolding_all rfl⟩
  · intro reqs cost
    exact score_mapping_eq_spec
      (difficulty_score_spec 5 100 TupaScraper.complex_words reqs cost)
  · intro reqs cost
    exact score_mapping_eq_spec
      (difficulty_score_spec 6 1000
        ["declaracion", "aforo", "valorizacion", "arancel"] reqs cost)

/-- C9: whenever the page text contains one of the free words
("gratuito", "gratis", "sin costo", case-insensitively), the basic web
extractor's cost is 0 — the override runs after the currency-amount regex
and unconditionally wins — and a record produced from such a page has
`is_free = true`. -/
theorem free_words_force_zero_cost :
    (∀ t, free_words_present t = true →
      (TupaScraper.extract_cost_info t).1 = 0) ∧
    (∀ page r, TupaScraper.scrape_single_procedure page = some r →
      free_words_present page.text.data = true →
      r.cost = 0 ∧ r.is_free = true) := by
  have h1 : ∀ t, free_words_present t = true →
      (TupaScraper.extract_cost_info t).1 = 0 := by
    intro t h
    unfold TupaScraper.extract_cost_info
    dsimp only
    rw [if_pos h]
  refine ⟨h1, ?_⟩
  intro page r hr hfree
  simp only [TupaScraper.scrape_single_procedure] at hr
  split at hr
  · exact absurd hr (by simp)
  · split at hr
    · exact absurd hr (by simp)
    · injection hr with h
      subst h
      have hc := h1 page.text.data hfree
      constructor
      · exact hc
      · show ((TupaScraper.extract_cost_info page.text.data).1 == 0) = true
        rw [hc]
        with_unfolding_all rfl

/-- Witness for C9: a text holding both an explicit amount (150.00) and a
free word; the extracted cost is 0 and the produced record is free. -/
theorem free_words_force_zero_cost_witness :
    free_words_present "El costo es S/. 150.00 pero hoy es gratuito".data = true ∧
    (TupaScraper.extract_cost_info
      "El costo es S/. 150.00 pero hoy es gratuito".data).1 = 0 ∧
    (match TupaScraper.scrape_single_procedure c9_page with
     | some r => r.cost = 0 ∧ r.is_free = true
     | none => False) := by
  refine ⟨rfl, free_words_force_zero_cost.1 _ rfl, ?_⟩
  obtain ⟨r, hr⟩ : ∃ r, TupaScraper.scrape_single_procedure c9_page = some r :=
    Option.isSome_iff_exists.mp (by with_unfolding_all rfl)
  rw [hr]
  exact free_words_force_zero_cost.2 c9_page r hr rfl

/-- C3 counterexample: on a SUNAT page whose text contains
`"Código TUPA: SUNAT-001"` and `"Tasa: S/. 50.00"` and whose requirement
list has 3 items, the produced record's `tupa_code` is not `"SUNAT-001"`:
the capture class `[A-Z0-9\-\.]+` of the codigo pattern stops at the colon,
so the word directly after `"Código"` — `"TUPA"` — is captured instead. -/
theorem sunat_scenario_code_not_extracted :
    containsS c3_page.text "Código TUPA: SUNAT-001" = true ∧
    containsS c3_page.text "Tasa: S/. 50.00" = true ∧
    c3_page.reqItems.length = 3 ∧
    (SpecializedScraper.extract_sunat_procedure hashZero c3_page).tupa_code ≠
      "SUNAT-001" := by
  refine ⟨rfl, rfl, rfl, by decide⟩

/-- C3 amended: on that page the specialized SUNAT extractor returns one
record with `tupa_code = "TUPA"` (the regex captures the word after
"Código"), `cost = 50.0`, `is_free = false`, 3 requirements, and
`entity_code = "SUNAT"`. -/
theorem sunat_scenario_record_fields :
    (SpecializedScraper.extract_sunat_procedure hashZero c3_page).tupa_code = "TUPA" ∧
    (SpecializedScraper.extract_sunat_procedure hashZero c3_page).cost = 50 ∧
    (SpecializedScraper.extract_sunat_procedure hashZero c3_page).is_free = false ∧
    (SpecializedScraper.extract_sunat_procedure hashZero c3_page).requirements.length = 3 ∧
    (SpecializedScraper.extract_sunat_procedure hashZero c3_page).entity_code = "SUNAT" := by
  refine ⟨rfl, by with_unfolding_all rfl, by with_unfolding_all rfl, rfl, rfl⟩

/-- C6: every `ProcedureData` construction site in the three extractor
modules satisfies `cost >= 0` and `is_free == (cost == 0)` — the basic web
extractor, the three curated lists, the five specialized extractors, the
PDF section parser, the tasa-row parser, and the manual / registro /
centros / generic-Excel paths. -/
theorem cost_free_invariant :
    (∀ page r, TupaScraper.scrape_single_procedure page = some r →
      0 ≤ r.cost ∧ r.is_free = (r.cost == 0)) ∧
    ((TupaScraper.scrape_sunat ++ TupaScraper.scrape_reniec ++
      TupaScraper.scrape_sunarp).all costInvB = true) ∧
    (∀ h page, 0 ≤ (SpecializedScraper.extract_sunat_procedure h page).cost ∧
      (SpecializedScraper.extract_sunat_procedure h page).is_free =
        ((SpecializedScraper.extract_sunat_procedure h page).cost == 0)) ∧
    (∀ h page, 0 ≤ (SpecializedScraper.extract_gob_procedure h page).cost ∧
      (SpecializedScraper.extract_gob_procedure h page).is_free =
        ((SpecializedScraper.extract_gob_procedure h page).cost == 0)) ∧
    (∀ th dh li h url,
      0 ≤ (SpecializedScraper.extract_reniec_procedure th dh li h url).cost ∧
      (SpecializedScraper.extract_reniec_procedure th dh li h url).is_free =
        ((SpecializedScraper.extract_reniec_procedure th dh li h url).cost == 0)) ∧
    (∀ th url, 0 ≤ (SpecializedScraper.extract_mtc_procedure th url).cost ∧
      (SpecializedScraper.extract_mtc_procedure th url).is_free =
        ((SpecializedScraper.extract_mtc_procedure th url).cost == 0)) ∧
    (∀ th dh li h url,
      0 ≤ (SpecializedScraper.extract_generic_procedure th dh li h url).cost ∧
      (SpecializedScraper.extract_generic_procedure th dh li h url).is_free =
        ((SpecializedScraper.extract_generic_procedure th dh li h url).cost == 0)) ∧
    (∀ sec sn i r, PDFProcessor.parse_procedure_section sec sn i = some r →
      0 ≤ r.cost ∧ r.is_free = (r.cost == 0)) ∧
    (∀ h row r, PDFProcessor.parse_tasa_row h row = some r →
      0 ≤ r.cost ∧ r.is_free = (r.cost == 0)) ∧
    (∀ text, (PDFProcessor.extract_manual_procedures text).all costInvB = true) ∧
    (∀ fp, (PDFProcessor.process_registro_pdf fp).all costInvB = true) ∧
    (∀ fp n, (PDFProcessor.process_centros_xlsx fp n).all costInvB = true) ∧
    (∀ h fp, (PDFProcessor.process_generic_xlsx h fp).all costInvB = true) := by
  refine ⟨?_, by with_unfolding_all rfl, ?_, ?_, ?_, ?_, ?_, ?_, ?_, ?_, ?_, ?_, ?_⟩
  · intro page r hr
    simp only [TupaScraper.scrape_single_procedure] at hr
    split at hr
    · exact absurd hr (by simp)
    · split at hr
      · exact absurd hr (by simp)
      · injection hr with h
        subst h
        exact ⟨extract_cost_info_nonneg page.text.data, rfl⟩
  · intro h page
    exact ⟨sunat_cost_nonneg page.text.data, rfl⟩
  · intro h page
    exact ⟨gobScan_cost_nonneg page.infoSections, rfl⟩
  · intro th dh li h url
    refine ⟨?_, by with_unfolding_all rfl⟩
    show (0 : Rat) ≤ (161 : Rat) / 5
    norm_num
  · intro th url
    refine ⟨?_, by with_unfolding_all rfl⟩
    show (0 : Rat) ≤ 0
    norm_num
  · intro th dh li h url
    refine ⟨?_, by with_unfolding_all rfl⟩
    show (0 : Rat) ≤ 0
    norm_num
  · intro sec sn i r hr
    simp only [PDFProcessor.parse_procedure_section] at hr
    split at hr
    · exact absurd hr (by simp)
    · injection hr with h
      subst h
      exact ⟨pdf_section_cost_nonneg sec.data, rfl⟩
  · intro h row r hr
    simp only [PDFProcessor.parse_tasa_row] at hr
    split at hr
    · exact absurd hr (by simp)
    · split at hr
      · exact absurd hr (by simp)
      · split at hr
        · exact absurd hr (by simp)
        · rename_i cost hcost
          injection hr with h2
          subst h2
          refine ⟨?_, rfl⟩
          split at hcost
          · exact pyFloatDec?_nonneg _ _ hcost
          · injection hcost with h3
            subst h3
            norm_num
  · intro text
    rw [List.all_eq_true]
    intro r hr
    unfold PDFProcessor.extract_manual_procedures at hr
    obtain ⟨p, hp, rfl⟩ := List.mem_map.mp hr
    with_unfolding_all rfl
  · intro fp
    with_unfolding_all rfl
  · intro fp n
    cases n with
    | zero => rfl
    | succ k => with_unfolding_all rfl
  · intro h fp
    with_unfolding_all rfl

/-- Witness for C6: the hypothesis-bearing conjuncts instantiated — the
basic web extractor on a page with an explicit amount, the PDF section
parser on a priced section, and the tasa-row parser on a concrete row. -/
theorem cost_free_invariant_witness :
    (match TupaScraper.scrape_single_procedure c6_page with
     | some r => 0 ≤ r.cost ∧ r.is_free = (r.cost == 0)
     | none => False) ∧
    (match PDFProcessor.parse_procedure_section c6_section "Fuente" 1 with
     | some r => 0 ≤ r.cost ∧ r.is_free = (r.cost == 0)
     | none => False) ∧
    (match PDFProcessor.parse_tasa_row hashZero
        [some "Registro de firmas legales", some "35.00", some "x"] with
     | some r => 0 ≤ r.cost ∧ r.is_free = (r.cost == 0)
     | none => False) := by
  refine ⟨?_, ?_, ?_⟩
  · obtain ⟨r, hr⟩ : ∃ r, TupaScraper.scrape_single_procedure c6_page = some r :=
      Option.isSome_iff_exists.mp (by with_unfolding_all rfl)
    rw [hr]
    exact cost_free_invariant.1 c6_page r hr
  · obtain ⟨r, hr⟩ :
        ∃ r, PDFProcessor.parse_procedure_section c6_section "Fuente" 1 = some r :=
      Option.isSome_iff_exists.mp (by with_unfolding_all rfl)
    rw [hr]
    exact cost_free_invariant.2.2.2.2.2.2.2.1 c6_section "Fuente" 1 r hr
  · obtain ⟨r, hr⟩ :
        ∃ r, PDFProcessor.parse_tasa_row hashZero
          [some "Registro de firmas legales", some "35.00", some "x"] = some r :=
      Option.isSome_iff_exists.mp (by with_unfolding_all rfl)
    rw [hr]
    exact cost_free_invariant.2.2.2.2.2.2.2.2.1 hashZero _ r hr

/-- C8's witness page for the basic web extractor. -/
def c8_basic_page : TupaScraper.BasicPage :=
  { status := 200
    nameHits := ["Pedido de informes varios"]
    descHits := []
    paragraphs := []
    entityHits := []
    reqItems := []
    text := "texto plano"
    url := "https://www.gob.pe/z" }

/-- No keyword of a category table occurs in the (lowered) text. -/
def noTableKeyword (table : List (String × List String)) (text : List Char) : Bool :=
  table.all (fun ck => ck.2.all (fun kw => !containsL (lowStr text) kw.data))

/-- A keyword-table classifier with no matching keyword returns its
default. -/
theorem table_classifier_default (table : List (String × List String))
    (text : List Char) (h : noTableKeyword table text = true) :
    table.find? (fun ck => ck.2.any (fun kw => containsL (lowStr text) kw.data)) =
      none := by
  apply List.find?_eq_none.mpr
  intro ck hck
  simp only [noTableKeyword, List.all_eq_true] at h
  have h2 := h ck hck
  simp only [List.any_eq_true]
  rintro ⟨kw, hkw, hc⟩
  have h3 := h2 kw hkw
  rw [hc] at h3
  exact absurd h3 (by decide)

theorem classify_procedure_ne_empty (n d : String) :
    TupaScraper.classify_procedure n d ≠ "" := by
  unfold TupaScraper.classify_procedure
  cases hf : TupaScraper.categories.find? (fun ck =>
      ck.2.any (fun kw => containsL (lowStr (n ++ " " ++ d).data) kw.data)) with
  | none => simp only [hf]; decide
  | some ck =>
      simp only [hf]
      have hm := List.mem_of_find?_eq_some hf
      fin_cases hm <;> decide

theorem categorize_from_content_ne_empty (s : String) :
    PDFProcessor.categorize_from_content s ≠ "" := by
  unfold PDFProcessor.categorize_from_content
  cases hf : PDFProcessor.pdf_categories.find? (fun ck =>
      ck.2.any (fun kw => containsL (lowStr s.data) kw.data)) with
  | none => simp only [hf]; decide
  | some ck =>
      simp only [hf]
      have hm := List.mem_of_find?_eq_some hf
      fin_cases hm <;> decide

theorem categorize_generic_ne_empty (n d : String) :
    SpecializedScraper.categorize_generic_procedure n d ≠ "" := by
  unfold SpecializedScraper.categorize_generic_procedure
  cases hf : List.find? (fun ck =>
      ck.2.any (fun kw => containsL (lowStr (n ++ " " ++ d).data) kw.data))
      [("identidad", ["dni", "pasaporte", "identificacion"]),
       ("empresarial", ["empresa", "negocio", "ruc"]),
       ("vehicular", ["licencia", "conducir", "vehiculo"]),
       ("salud", ["salud", "medico", "sanitario"]),
       ("educacion", ["educacion", "titulo", "certificado"])] with
  | none => simp only [hf]; decide
  | some ck =>
      simp only [hf]
      have hm := List.mem_of_find?_eq_some hf
      fin_cases hm <;> decide

theorem categorize_sunat_ne_empty (n d u : String) :
    SpecializedScraper.categorize_sunat_procedure n d u ≠ "" := by
  unfold SpecializedScraper.categorize_sunat_procedure
  dsimp only
  split <;> first
    | decide
    | (split <;> first
        | decide
        | (split <;> first
            | decide
            | (split <;> decide)))

/-- The SUNAT classifier with none of its keywords present returns its
default `"tributario"`. -/
theorem sunat_no_keyword_default (n d u : String)
    (h : (sunat_category_keywords.all (fun w =>
      !containsL (lowStr (n ++ " " ++ d ++ " " ++ u).data) w.data)) = true) :
    SpecializedScraper.categorize_sunat_procedure n d u = "tributario" := by
  simp only [sunat_category_keywords, List.all_cons, List.all_nil,
    Bool.and_eq_true, Bool.not_eq_true'] at h
  obtain ⟨h1, h2, h3, h4, h5, h6, h7, h8, h9, h10, -⟩ := h
  unfold SpecializedScraper.categorize_sunat_procedure
  simp_all

set_option maxRecDepth 4000 in
/-- C8 counterexample: a record produced by the SUNAT specialized extractor
whose classification text (name + description + url) contains no keyword of
any classification rule still carries category `"tributario"` — the SUNAT
classifier's default — not `"general"`. -/
theorem sunat_category_defaults_to_tributario :
    (SpecializedScraper.extract_sunat_procedure hashZero c8_page).name =
      "Gestión de maquinaria pesada" ∧
    (SpecializedScraper.extract_sunat_procedure hashZero c8_page).description =
      "Solicitud de copias del legajo" ∧
    (sunat_category_keywords.all (fun w =>
      !containsL (lowStr ("Gestión de maquinaria pesada" ++ " " ++
        "Solicitud de copias del legajo" ++ " " ++ c8_page.url).data)
        w.data)) = true ∧
    (SpecializedScraper.extract_sunat_procedure hashZero c8_page).category =
      "tributario" ∧
    (SpecializedScraper.extract_sunat_procedure hashZero c8_page).category ≠
      "general" := by
  have h1 : (SpecializedScraper.extract_sunat_procedure hashZero c8_page).name =
      "Gestión de maquinaria pesada" := rfl
  have h2 : (SpecializedScraper.extract_sunat_procedure hashZero c8_page).description =
      "Solicitud de copias del legajo" := rfl
  have hall : (sunat_category_keywords.all (fun w =>
      !containsL (lowStr ("Gestión de maquinaria pesada" ++ " " ++
        "Solicitud de copias del legajo" ++ " " ++ c8_page.url).data)
        w.data)) = true := by decide
  have hcat : (SpecializedScraper.extract_sunat_procedure hashZero c8_page).category =
      SpecializedScraper.categorize_sunat_procedure
        "Gestión de maquinaria pesada" "Solicitud de copias del legajo"
        c8_page.url := rfl
  have hdef := sunat_no_keyword_default "Gestión de maquinaria pesada"
    "Solicitud de copias del legajo" c8_page.url hall
  refine ⟨h1, h2, hall, by rw [hcat, hdef], by rw [hcat, hdef]; decide⟩

/-- C8 amended: `category` is a non-empty string at every construction
site; the keyword classifiers of the basic web extractor, the PDF extractor
and the generic specialized extractor default to `"general"` when no rule
matches, but the SUNAT-specific classifier defaults to `"tributario"`, and
the curated paths assign fixed non-empty categories. -/
theorem category_nonempty_with_defaults :
    (∀ page r, TupaScraper.scrape_single_procedure page = some r →
      r.category ≠ "") ∧
    ((TupaScraper.scrape_sunat ++ TupaScraper.scrape_reniec ++
      TupaScraper.scrape_sunarp).all catNonEmptyB = true) ∧
    (∀ h page, (SpecializedScraper.extract_sunat_procedure h page).category ≠ "") ∧
    (∀ h page, (SpecializedScraper.extract_gob_procedure h page).category ≠ "") ∧
    (∀ th dh li h url,
      (SpecializedScraper.extract_reniec_procedure th dh li h url).category ≠ "") ∧
    (∀ th url, (SpecializedScraper.extract_mtc_procedure th url).category ≠ "") ∧
    (∀ th dh li h url,
      (SpecializedScraper.extract_generic_procedure th dh li h url).category ≠ "") ∧
    (∀ sec sn i r, PDFProcessor.parse_procedure_section sec sn i = some r →
      r.category ≠ "") ∧
    (∀ h row r, PDFProcessor.parse_tasa_row h row = some r → r.category ≠ "") ∧
    (∀ text, (PDFProcessor.extract_manual_procedures text).all catNonEmptyB = true) ∧
    (∀ fp, (PDFProcessor.process_registro_pdf fp).all catNonEmptyB = true) ∧
    (∀ fp n, (PDFProcessor.process_centros_xlsx fp n).all catNonEmptyB = true) ∧
    (∀ h fp, (PDFProcessor.process_generic_xlsx h fp).all catNonEmptyB = true) ∧
    (∀ n d, noTableKeyword TupaScraper.categories (n ++ " " ++ d).data = true →
      TupaScraper.classify_procedure n d = "general") ∧
    (∀ s, noTableKeyword PDFProcessor.pdf_categories s.data = true →
      PDFProcessor.categorize_from_content s = "general") ∧
    (∀ n d, noTableKeyword
        [("identidad", ["dni", "pasaporte", "identificacion"]),
         ("empresarial", ["empresa", "negocio", "ruc"]),
         ("vehicular", ["licencia", "conducir", "vehiculo"]),
         ("salud", ["salud", "medico", "sanitario"]),
         ("educacion", ["educacion", "titulo", "certificado"])]
        (n ++ " " ++ d).data = true →
      SpecializedScraper.categorize_generic_procedure n d = "general") ∧
    (∀ n d u, (sunat_category_keywords.all (fun w =>
        !containsL (lowStr (n ++ " " ++ d ++ " " ++ u).data) w.data)) = true →
      SpecializedScraper.categorize_sunat_procedure n d u = "tributario") := by
  refine ⟨?_, rfl, ?_, ?_, ?_, ?_, ?_, ?_, ?_, ?_, ?_, ?_, ?_, ?_, ?_, ?_, ?_⟩
  · intro page r hr
    simp only [TupaScraper.scrape_single_procedure] at hr
    split at hr
    · exact absurd hr (by simp)
    · split at hr
      · exact absurd hr (by simp)
      · injection hr with h
        subst h
        exact classify_procedure_ne_empty _ _
  · intro h page
    exact categorize_sunat_ne_empty _ _ _
  · intro h page
    exact categorize_generic_ne_empty _ _
  · intro th dh li h url
    show ("identidad" : String) ≠ ""
    decide
  · intro th url
    show ("vehicular" : String) ≠ ""
    decide
  · intro th dh li h url
    show ("general" : String) ≠ ""
    decide
  · intro sec sn i r hr
    simp only [PDFProcessor.parse_procedure_section] at hr
    split at hr
    · exact absurd hr (by simp)
    · injection hr with h
      subst h
      exact categorize_from_content_ne_empty _
  · intro h row r hr
    simp only [PDFProcessor.parse_tasa_row] at hr
    split at hr
    · exact absurd hr (by simp)
    · split at hr
      · exact absurd hr (by simp)
      · split at hr
        · exact absurd hr (by simp)
        · injection hr with h2
          subst h2
          show ("tasa" : String) ≠ ""
          decide
  · intro text
    rw [List.all_eq_true]
    intro r hr
    unfold PDFProcessor.extract_manual_procedures at hr
    obtain ⟨p, hp, rfl⟩ := List.mem_map.mp hr
    rfl
  · intro fp
    rfl
  · intro fp n
    cases n with
    | zero => rfl
    | succ k => rfl
  · intro h fp
    rfl
  · intro n d h
    unfold TupaScraper.classify_procedure
    dsimp only
    rw [table_classifier_default _ _ h]
  · intro s h
    unfold PDFProcessor.categorize_from_content
    dsimp only
    rw [table_classifier_default _ _ h]
  · intro n d h
    unfold SpecializedScraper.categorize_generic_procedure
    dsimp only
    rw [table_classifier_default _ _ h]
  · exact sunat_no_keyword_default

/-- C8's witness section for the PDF parser. -/
def c8_section : String :=
  "PROCEDIMIENTO N° 7 Solicitud de informes en mesa de partes"

set_option maxRecDepth 4000 in
/-- Witness for the amended C8: the hypothesis-bearing conjuncts
instantiated — records from the basic web extractor, the PDF section
parser and the tasa-row parser all carry a non-empty category, and the
four classifiers evaluated on keyword-free texts return their defaults. -/
theorem category_nonempty_with_defaults_witness :
    (match TupaScraper.scrape_single_procedure c8_basic_page with
     | some r => r.category ≠ ""
     | none => False) ∧
    (match PDFProcessor.parse_procedure_section c8_section "Fuente" 1 with
     | some r => r.category ≠ ""
     | none => False) ∧
    (match PDFProcessor.parse_tasa_row hashZero
        [some "Informes en mesa de partes", some "12.00", some "x"] with
     | some r => r.category ≠ ""
     | none => False) ∧
    TupaScraper.classify_procedure "Pedido de informes" "texto plano" =
      "general" ∧
    PDFProcessor.categorize_from_content "texto plano de informes" =
      "general" ∧
    SpecializedScraper.categorize_generic_procedure "Pedido de informes"
      "texto plano" = "general" ∧
    SpecializedScraper.categorize_sunat_procedure
      "Gestión de maquinaria pesada" "Solicitud de copias del legajo"
      "https://www.sunat.gob.pe/xyz" = "tributario" := by
  refine ⟨?_, ?_, ?_, ?_, ?_, ?_, ?_⟩
  · obtain ⟨r, hr⟩ : ∃ r, TupaScraper.scrape_single_procedure c8_basic_page = some r :=
      Option.isSome_iff_exists.mp (by with_unfolding_all rfl)
    rw [hr]
    exact category_nonempty_with_defaults.1 c8_basic_page r hr
  · obtain ⟨r, hr⟩ :
        ∃ r, PDFProcessor.parse_procedure_section c8_section "Fuente" 1 = some r :=
      Option.isSome_iff_exists.mp (by with_unfolding_all rfl)
    rw [hr]
    exact category_nonempty_with_defaults.2.2.2.2.2.2.2.1 c8_section "Fuente" 1 r hr
  · obtain ⟨r, hr⟩ :
        ∃ r, PDFProcessor.parse_tasa_row hashZero
          [some "Informes en mesa de partes", some "12.00", some "x"] = some r :=
      Option.isSome_iff_exists.mp (by with_unfolding_all rfl)
    rw [hr]
    exact category_nonempty_with_defaults.2.2.2.2.2.2.2.2.1 hashZero _ r hr
  · exact category_nonempty_with_defaults.2.2.2.2.2.2.2.2.2.2.2.2.2.1
      "Pedido de informes" "texto plano" (by decide)
  · exact category_nonempty_with_defaults.2.2.2.2.2.2.2.2.2.2.2.2.2.2.1
      "texto plano de informes" (by decide)
  · exact category_nonempty_with_defaults.2.2.2.2.2.2.2.2.2.2.2.2.2.2.2.1
      "Pedido de informes" "texto plano" (by decide)
  · exact category_nonempty_with_defaults.2.2.2.2.2.2.2.2.2.2.2.2.2.2.2.2
      "Gestión de maquinaria pesada" "Solicitud de copias del legajo"
      "https://www.sunat.gob.pe/xyz" (by decide)

end Scraper
